import Mathlib

/-!
Verification of the swoole server runtime core (ext-src/swoole_server.cc,
src/os/signal.cc) against its natural-language specification.

Each C function relevant to the claims is shallowly embedded as an executable
Lean definition; machine integers are modelled as `Int`/`Nat` with explicit
two's-complement truncation where the C code narrows, and environment effects
(syscalls, the PHP engine) appear as explicit parameters describing their
outcome.
-/

namespace Swoole

/-- Two's-complement truncation of a 64-bit `zend_long` to the 32-bit C `int`
return type used by `php_swoole_server_dispatch_func`. -/
def toInt32 (i : Int) : Int := (i + 2 ^ 31) % 2 ^ 32 - 2 ^ 31

theorem toInt32_eq_self (i : Int) (h1 : -2 ^ 31 ≤ i) (h2 : i < 2 ^ 31) :
    toInt32 i = i := by
  unfold toInt32
  rw [Int.emod_eq_of_lt (by omega) (by omega)]
  omega

/-! ## Dispatch function wrapper (ext-src/swoole_server.cc, php_swoole_server_dispatch_func) -/

/-- Outcome of invoking the user-supplied dispatch callback from
`php_swoole_server_dispatch_func`: the engine call failed, the callback
returned PHP null, or it returned a value converted to a `zend_long`. -/
inductive DispatchCallOutcome where
  | callFailed
  | returnedNull
  | returnedLong (v : Int)
deriving DecidableEq, Repr

/-- Embedding of `php_swoole_server_dispatch_func` (lines 1829-1865):
`worker_id` starts at `-1`; a failed call or a null return leaves it `-1`;
a long return `v` with `v >= worker_num` is reset to `-1` with a warning;
otherwise `v` is kept.  The 64-bit `worker_id` is truncated to the C `int`
return type on the way out. -/
def php_swoole_server_dispatch_func (worker_num : Nat) (outcome : DispatchCallOutcome) : Int :=
  let worker_id : Int :=
    match outcome with
    | .callFailed => -1
    | .returnedNull => -1
    | .returnedLong v => if v ≥ (worker_num : Int) then -1 else v
  toInt32 worker_id

/-- C2 counterexample: with 4 workers, a dispatch callback returning `-2`
(the close-connection dispatch-result sentinel) is passed through verbatim:
the wrapper returns `-2`, which is neither a worker id in `[0, 4)` nor the
fallback sentinel `-1`. -/
theorem dispatch_func_counterexample :
    php_swoole_server_dispatch_func 4 (.returnedLong (-2)) = -2 ∧
    ¬ ((0 : Int) ≤ -2 ∧ (-2 : Int) < 4) ∧ (-2 : Int) ≠ -1 := by
  refine ⟨?_, by omega, by omega⟩
  unfold php_swoole_server_dispatch_func toInt32
  decide

/-- C2 (amended): provided the callback's long return fits in a 32-bit int
(no truncation wrap), `php_swoole_server_dispatch_func` returns a valid
worker id in `[0, worker_num)`, the fallback sentinel `-1` (callback failed,
returned null, or returned an id at or above `worker_num`), or a negative
value returned by the callback itself (interpreted downstream as a
dispatch-result sentinel); it never returns a non-negative out-of-range
worker id. -/
theorem dispatch_func_range (worker_num : Nat) (outcome : DispatchCallOutcome)
    (h : ∀ v, outcome = .returnedLong v → -2 ^ 31 ≤ v ∧ v < 2 ^ 31) :
    (0 ≤ php_swoole_server_dispatch_func worker_num outcome ∧
      php_swoole_server_dispatch_func worker_num outcome < worker_num) ∨
    php_swoole_server_dispatch_func worker_num outcome = -1 ∨
    (php_swoole_server_dispatch_func worker_num outcome < 0 ∧
      ∃ v, outcome = .returnedLong v ∧
        php_swoole_server_dispatch_func worker_num outcome = v) := by
  cases outcome with
  | callFailed =>
      right; left
      show toInt32 (-1) = -1
      decide
  | returnedNull =>
      right; left
      show toInt32 (-1) = -1
      decide
  | returnedLong v =>
      obtain ⟨hlo, hhi⟩ := h v rfl
      by_cases hge : v ≥ (worker_num : Int)
      · right; left
        show toInt32 (if v ≥ (worker_num : Int) then -1 else v) = -1
        rw [if_pos hge]
        decide
      · have hval : php_swoole_server_dispatch_func worker_num (.returnedLong v) = v := by
          show toInt32 (if v ≥ (worker_num : Int) then -1 else v) = v
          rw [if_neg hge]
          exact toInt32_eq_self v hlo hhi
        by_cases hneg : v < 0
        · right; right
          exact ⟨by omega, v, rfl, hval⟩
        · left
          constructor
          · omega
          · omega

/-- C2 witness: instantiating `dispatch_func_range` at 4 workers and a
callback returning 2 shows the in-range outcome concretely. -/
theorem dispatch_func_range_witness :
    (0 ≤ php_swoole_server_dispatch_func 4 (.returnedLong 2) ∧
      php_swoole_server_dispatch_func 4 (.returnedLong 2) < (4 : Nat)) ∨
    php_swoole_server_dispatch_func 4 (.returnedLong 2) = -1 ∨
    (php_swoole_server_dispatch_func 4 (.returnedLong 2) < 0 ∧
      ∃ v, DispatchCallOutcome.returnedLong 2 = .returnedLong v ∧
        php_swoole_server_dispatch_func 4 (.returnedLong 2) = v) :=
  dispatch_func_range 4 (.returnedLong 2) (by intro v hv; cases hv; omega)

/-! ## Task payload packing (ext-src/swoole_server.cc, php_swoole_server_task_pack / unpack) -/

/-- Byte strings (PHP strings and IPC payloads are raw byte sequences). -/
def Bytes := List Nat
deriving DecidableEq, Repr

/-- PHP values as far as the task envelope observes them: a plain string
payload, or a non-string value that must travel serialized.  Non-string
values are represented by the scalar shapes needed for concrete runs. -/
inductive ZValue where
  | zstr (s : Bytes)
  | zint (i : Int)
  | zbool (b : Bool)
  | znull
deriving DecidableEq, Repr

/-- Decimal digits of a natural number, least-significant first. -/
def toDigits (n : Nat) : List Nat :=
  if _h : n < 10 then [n]
  else (n % 10) :: toDigits (n / 10)
decreasing_by exact Nat.div_lt_self (by omega) (by omega)

/-- Reassemble a natural number from its least-significant-first digits. -/
def ofDigits : List Nat → Nat
  | [] => 0
  | d :: ds => d + 10 * ofDigits ds

theorem ofDigits_toDigits (n : Nat) : ofDigits (toDigits n) = n := by
  induction n using Nat.strong_induction_on with
  | _ n ih =>
    rw [toDigits]
    split
    · simp [ofDigits]
    · rename_i h
      simp only [ofDigits, ih (n / 10) (Nat.div_lt_self (by omega) (by omega))]
      omega

/-- Modelled from the spec: the host engine's serializer
(`php_var_serialize`, an external collaborator specified only at its
interface boundary) encodes a value to bytes. -/
def php_serialize : ZValue → Bytes
  | .zstr s => 0 :: s
  | .zint i => 1 :: (if i < 0 then 1 else 0) :: toDigits i.natAbs
  | .zbool b => [2, if b then 1 else 0]
  | .znull => [3]

/-- Modelled from the spec: the host engine's deserializer
(`php_var_unserialize`), the inverse of `php_serialize`; malformed input
yields `none`. -/
def php_unserialize (b : Bytes) : Option ZValue :=
  match b with
  | 0 :: s => some (.zstr s)
  | 1 :: sgn :: ds =>
      some (.zint (if sgn = 1 then -(ofDigits ds : Int) else (ofDigits ds : Int)))
  | [2, v] => some (.zbool (v == 1))
  | [3] => some .znull
  | _ => none

theorem php_unserialize_php_serialize (v : ZValue) :
    php_unserialize (php_serialize v) = some v := by
  cases v with
  | zstr s => rfl
  | zint i =>
      show php_unserialize (1 :: (if i < 0 then 1 else 0) :: toDigits i.natAbs) =
        some (.zint i)
      by_cases hi : i < 0
      · rw [if_pos hi]
        show some (ZValue.zint (if (1 : Nat) = 1 then -(ofDigits (toDigits i.natAbs) : Int)
            else (ofDigits (toDigits i.natAbs) : Int))) = some (ZValue.zint i)
        rw [if_pos rfl, ofDigits_toDigits]
        have habs : ((i.natAbs : Int)) = -i := by omega
        rw [habs, neg_neg]
      · rw [if_neg hi]
        show some (ZValue.zint (if (0 : Nat) = 1 then -(ofDigits (toDigits i.natAbs) : Int)
            else (ofDigits (toDigits i.natAbs) : Int))) = some (ZValue.zint i)
        rw [if_neg (by omega : ¬ (0 : Nat) = 1), ofDigits_toDigits]
        have habs : ((i.natAbs : Int)) = i := by omega
        rw [habs]
  | zbool b => cases b <;> rfl
  | znull => rfl

/-- Task flag bits, as registered by the extension (SWOOLE_TASK_* constants);
the numeric values are declared in headers outside src/. -/
def SW_TASK_TMPFILE : Nat := 1

/-- Serialization-required task flag bit. -/
def SW_TASK_SERIALIZE : Nat := 2

/-- Non-blocking task flag bit. -/
def SW_TASK_NONBLOCK : Nat := 4

/-- Registered-callback task flag bit. -/
def SW_TASK_CALLBACK : Nat := 8

/-- Wait-all task flag bit. -/
def SW_TASK_WAITALL : Nat := 16

/-- Coroutine-mode task flag bit. -/
def SW_TASK_COROUTINE : Nat := 32

/-- Peek task flag bit. -/
def SW_TASK_PEEK : Nat := 64

/-- No-reply task flag bit. -/
def SW_TASK_NOREPLY : Nat := 128

/-- Test whether a flag bit is present in a bitmask (C `flags & flag`). -/
def hasFlag (flags flag : Nat) : Bool := flags &&& flag != 0

/-- Modelled from the spec: the inline IPC buffer bound
(`SW_IPC_BUFFER_SIZE`, declared in headers outside src/); payloads larger
than this are spooled through a temporary file. -/
def SW_IPC_BUFFER_SIZE : Nat := 8192

/-- IPC envelope header: `info.fd` carries the task id for task events,
`len` the inline payload length, `ext_flags` the task flag bitmask. -/
structure DataHead where
  fd : Int
  len : Nat
  ext_flags : Nat
deriving DecidableEq, Repr

/-- IPC event: fixed header plus inline payload bytes. -/
structure EventData where
  info : DataHead
  data : Bytes
deriving DecidableEq, Repr

/-- Result of packing one task: the event and, for large payloads, the
content spooled into the temporary file the event references. -/
structure TaskPackResult where
  event : EventData
  tmpfile : Option Bytes
deriving DecidableEq, Repr

/-- Modelled from the spec: `Server::task_pack` (core server, not under
src/) stores a payload inline when it fits the IPC buffer bound and
otherwise spools it through a temporary file referenced by the event,
setting the large-payload flag; the task id is stamped into `info.fd`. -/
def Server_task_pack (task_id : Int) (payload : Bytes) : TaskPackResult :=
  if List.length payload ≤ SW_IPC_BUFFER_SIZE then
    { event := { info := { fd := task_id, len := List.length payload, ext_flags := 0 },
                 data := payload },
      tmpfile := none }
  else
    { event := { info := { fd := task_id, len := 0, ext_flags := SW_TASK_TMPFILE },
                 data := [] },
      tmpfile := some payload }

/-- Modelled from the spec: `Server::task_unpack` (core server, not under
src/) reads the payload bytes inline, or from the referenced temporary file
when the large-payload flag is set. -/
def Server_task_unpack (event : EventData) (tmpfile : Option Bytes) : Option Bytes :=
  if hasFlag event.info.ext_flags SW_TASK_TMPFILE then tmpfile else some event.data

/-- Embedding of `php_swoole_server_task_pack` (lines 666-704): a non-string
value is serialized first and the serialization flag is OR-ed into
`ext_flags` after the core pack; a string travels as its raw bytes. -/
def php_swoole_server_task_pack (task_id : Int) (zdata : ZValue) : TaskPackResult :=
  match zdata with
  | .zstr s => Server_task_pack task_id s
  | v =>
      let r := Server_task_pack task_id (php_serialize v)
      { event := { r.event with info :=
          { r.event.info with ext_flags := r.event.info.ext_flags ||| SW_TASK_SERIALIZE } },
        tmpfile := r.tmpfile }

/-- Embedding of `php_swoole_server_task_unpack` (lines 740-765): the core
unpack recovers the raw bytes, then the serialization flag decides between
deserializing and wrapping the bytes as a PHP string. -/
def php_swoole_server_task_unpack (event : EventData) (tmpfile : Option Bytes) : Option ZValue :=
  match Server_task_unpack event tmpfile with
  | none => none
  | some bytes =>
      if hasFlag event.info.ext_flags SW_TASK_SERIALIZE then php_unserialize bytes
      else some (.zstr bytes)

theorem unpack_pack_string (task_id : Int) (s : Bytes) :
    php_swoole_server_task_unpack (Server_task_pack task_id s).event
      (Server_task_pack task_id s).tmpfile = some (.zstr s) := by
  unfold Server_task_pack
  by_cases hlen : List.length s ≤ SW_IPC_BUFFER_SIZE
  · rw [if_pos hlen]
    simp [php_swoole_server_task_unpack, Server_task_unpack, hasFlag,
      SW_TASK_TMPFILE, SW_TASK_SERIALIZE]
  · rw [if_neg hlen]
    simp [php_swoole_server_task_unpack, Server_task_unpack, hasFlag,
      SW_TASK_TMPFILE, SW_TASK_SERIALIZE]

theorem pack_string_flag (task_id : Int) (s : Bytes) :
    hasFlag (Server_task_pack task_id s).event.info.ext_flags SW_TASK_SERIALIZE = false := by
  unfold Server_task_pack
  by_cases hlen : List.length s ≤ SW_IPC_BUFFER_SIZE
  · rw [if_pos hlen]
    simp [hasFlag, SW_TASK_TMPFILE, SW_TASK_SERIALIZE]
  · rw [if_neg hlen]
    simp [hasFlag, SW_TASK_TMPFILE, SW_TASK_SERIALIZE]

theorem unpack_pack_serialized (task_id : Int) (b : Bytes) :
    php_swoole_server_task_unpack
      { (Server_task_pack task_id b).event with info :=
          { (Server_task_pack task_id b).event.info with ext_flags :=
              (Server_task_pack task_id b).event.info.ext_flags ||| SW_TASK_SERIALIZE } }
      (Server_task_pack task_id b).tmpfile = php_unserialize b := by
  unfold Server_task_pack
  by_cases hlen : List.length b ≤ SW_IPC_BUFFER_SIZE
  · rw [if_pos hlen]
    simp [php_swoole_server_task_unpack, Server_task_unpack, hasFlag,
      SW_TASK_TMPFILE, SW_TASK_SERIALIZE]
  · rw [if_neg hlen]
    simp [php_swoole_server_task_unpack, Server_task_unpack, hasFlag,
      SW_TASK_TMPFILE, SW_TASK_SERIALIZE]

theorem pack_serialized_flag (task_id : Int) (b : Bytes) :
    hasFlag ((Server_task_pack task_id b).event.info.ext_flags ||| SW_TASK_SERIALIZE)
      SW_TASK_SERIALIZE = true := by
  unfold Server_task_pack
  by_cases hlen : List.length b ≤ SW_IPC_BUFFER_SIZE
  · rw [if_pos hlen]
    simp [hasFlag, SW_TASK_TMPFILE, SW_TASK_SERIALIZE]
  · rw [if_neg hlen]
    simp [hasFlag, SW_TASK_TMPFILE, SW_TASK_SERIALIZE]

/-- C4: packing any payload (string or serializable non-string) and
unpacking the resulting event reproduces the original value, and the
serialization flag is set exactly for non-string payloads — for payloads
under and over the inline IPC buffer bound alike. -/
theorem php_task_pack_unpack_roundtrip (task_id : Int) (zdata : ZValue) :
    php_swoole_server_task_unpack
        (php_swoole_server_task_pack task_id zdata).event
        (php_swoole_server_task_pack task_id zdata).tmpfile = some zdata ∧
    (hasFlag (php_swoole_server_task_pack task_id zdata).event.info.ext_flags
        SW_TASK_SERIALIZE = true ↔ (∀ s, zdata ≠ .zstr s)) := by
  cases zdata with
  | zstr s =>
      refine ⟨unpack_pack_string task_id s, ?_, ?_⟩
      · intro h
        have h2 : hasFlag (Server_task_pack task_id s).event.info.ext_flags
            SW_TASK_SERIALIZE = true := h
        exact absurd ((pack_string_flag task_id s).symm.trans h2) (by decide)
      · intro hall
        exact absurd rfl (hall s)
  | zint i =>
      refine ⟨(unpack_pack_serialized task_id (php_serialize (.zint i))).trans
        (php_unserialize_php_serialize (.zint i)), ?_, ?_⟩
      · intro _ s h
        exact ZValue.noConfusion h
      · intro _
        exact pack_serialized_flag task_id (php_serialize (.zint i))
  | zbool b =>
      refine ⟨(unpack_pack_serialized task_id (php_serialize (.zbool b))).trans
        (php_unserialize_php_serialize (.zbool b)), ?_, ?_⟩
      · intro _ s h
        exact ZValue.noConfusion h
      · intro _
        exact pack_serialized_flag task_id (php_serialize (.zbool b))
  | znull =>
      refine ⟨(unpack_pack_serialized task_id (php_serialize .znull)).trans
        (php_unserialize_php_serialize .znull), ?_, ?_⟩
      · intro _ s h
        exact ZValue.noConfusion h
      · intro _
        exact pack_serialized_flag task_id (php_serialize .znull)

/-! ## Server->task (ext-src/swoole_server.cc, PHP_METHOD swoole_server task) -/

/-- Embedding of `php_swoole_server_task_check_param` (lines 724-738):
dispatch is rejected without task workers, with a positive destination id at
or beyond `task_worker_num`, or from inside a task worker.  `true` models
`SW_OK`. -/
def php_swoole_server_task_check_param (task_worker_num : Nat) (dst_worker_id : Int)
    (caller_is_task_worker : Bool) : Bool :=
  if task_worker_num = 0 then false
  else if dst_worker_id > 0 ∧ dst_worker_id ≥ (task_worker_num : Int) then false
  else if caller_is_task_worker then false
  else true

/-- Inputs of one `Server->task()` call: server/caller state plus the
outcomes of the engine-level steps (payload pack, callable creation,
core dispatch). -/
structure TaskCallArgs where
  is_started : Bool
  task_worker_num : Nat
  dst_worker_id : Int
  caller_is_task_worker : Bool
  caller_is_worker : Bool
  pack_task_id : Int
  zfn_truthy : Bool
  callable_ok : Bool
  dispatch_ok : Bool
deriving DecidableEq, Repr

/-- Outcome of one `Server->task()` call: the PHP return (`some task_id` or
`none` for `false`), the task flags OR-ed onto the event, and the task id a
finish callback was registered under, if any. -/
structure TaskCallOutcome where
  ret : Option Int
  ext_flags : Nat
  registered_callback : Option Int
deriving DecidableEq, Repr

/-- Embedding of `PHP_METHOD(swoole_server, task)` (lines 3286-3333): after
the start/parameter/pack checks, a caller that is not an event worker gets
the no-reply flag forced on; an event worker with a truthy finish-callback
argument gets the callback flag and a per-task-id callback registration;
the non-blocking flag is always added; dispatch success returns the task
id, failure returns false. -/
def swoole_server_task (a : TaskCallArgs) : TaskCallOutcome :=
  if a.is_started = false then ⟨none, 0, none⟩
  else if php_swoole_server_task_check_param a.task_worker_num a.dst_worker_id
      a.caller_is_task_worker = false then ⟨none, 0, none⟩
  else if a.pack_task_id < 0 then ⟨none, 0, none⟩
  else if a.caller_is_worker = false then
    let flags := SW_TASK_NOREPLY ||| SW_TASK_NONBLOCK
    if a.dispatch_ok then ⟨some a.pack_task_id, flags, none⟩ else ⟨none, flags, none⟩
  else if a.zfn_truthy then
    if a.callable_ok = false then ⟨none, SW_TASK_CALLBACK, none⟩
    else
      let flags := SW_TASK_CALLBACK ||| SW_TASK_NONBLOCK
      if a.dispatch_ok then ⟨some a.pack_task_id, flags, some a.pack_task_id⟩
      else ⟨none, flags, some a.pack_task_id⟩
  else
    if a.dispatch_ok then ⟨some a.pack_task_id, SW_TASK_NONBLOCK, none⟩
    else ⟨none, SW_TASK_NONBLOCK, none⟩

/-- C10: when the checks pass, a non-event-worker caller has the no-reply
flag forced onto the task (and never registers a finish callback); a
finish callback is registered only for an event-worker caller that passed
a truthy callback; and the call returns the task id exactly when dispatch
succeeded, false otherwise. -/
theorem swoole_server_task_contract (a : TaskCallArgs)
    (hstart : a.is_started = true)
    (hcheck : php_swoole_server_task_check_param a.task_worker_num a.dst_worker_id
      a.caller_is_task_worker = true)
    (hpack : 0 ≤ a.pack_task_id)
    (hcb : a.callable_ok = true) :
    (a.caller_is_worker = false →
      hasFlag (swoole_server_task a).ext_flags SW_TASK_NOREPLY = true ∧
      (swoole_server_task a).registered_callback = none) ∧
    ((swoole_server_task a).registered_callback ≠ none →
      a.caller_is_worker = true ∧ a.zfn_truthy = true) ∧
    (a.dispatch_ok = true → (swoole_server_task a).ret = some a.pack_task_id) ∧
    (a.dispatch_ok = false → (swoole_server_task a).ret = none) := by
  have hck2 : ¬ (php_swoole_server_task_check_param a.task_worker_num a.dst_worker_id
      a.caller_is_task_worker = false) := by rw [hcheck]; decide
  have hpk2 : ¬ (a.pack_task_id < 0) := by omega
  unfold swoole_server_task
  rw [hstart]
  simp only [Bool.true_eq_false, if_false, if_neg hck2, if_neg hpk2]
  cases hw : a.caller_is_worker with
  | false =>
      simp only [if_pos rfl]
      cases hd : a.dispatch_ok <;>
        simp [hasFlag, SW_TASK_NOREPLY, SW_TASK_NONBLOCK]
  | true =>
      simp only [Bool.true_eq_false, if_false]
      cases hz : a.zfn_truthy with
      | false =>
          simp only [Bool.false_eq_true, if_false]
          cases hd : a.dispatch_ok <;> simp
      | true =>
          simp only [if_true, hcb, Bool.true_eq_false, if_false]
          cases hd : a.dispatch_ok <;> simp

/-- Concrete argument record for the C10 witness: a manager-process call
(not an event worker) with a successful dispatch. -/
def taskCallArgsW : TaskCallArgs :=
  ⟨true, 2, -1, false, false, 5, false, true, true⟩

/-- C10 witness: instantiating the contract at `taskCallArgsW`. -/
theorem swoole_server_task_contract_witness :
    (taskCallArgsW.caller_is_worker = false →
      hasFlag (swoole_server_task taskCallArgsW).ext_flags SW_TASK_NOREPLY = true ∧
      (swoole_server_task taskCallArgsW).registered_callback = none) ∧
    ((swoole_server_task taskCallArgsW).registered_callback ≠ none →
      taskCallArgsW.caller_is_worker = true ∧ taskCallArgsW.zfn_truthy = true) ∧
    (taskCallArgsW.dispatch_ok = true →
      (swoole_server_task taskCallArgsW).ret = some taskCallArgsW.pack_task_id) ∧
    (taskCallArgsW.dispatch_ok = false →
      (swoole_server_task taskCallArgsW).ret = none) :=
  swoole_server_task_contract taskCallArgsW (by decide) (by decide) (by decide) (by decide)

/-! ## Connections: uid bind (PHP_METHOD swoole_server bind) and heartbeat sweep -/

/-- Connection attributes observed by the uid-bind and heartbeat paths. -/
structure Connection where
  session_id : Int
  uid : Nat
  protect : Bool
  last_recv_time : Int
  close_force : Bool
deriving DecidableEq, Repr

/-- C cast `(uint32_t) uid` of a `zend_long`. -/
def toUInt32 (i : Int) : Nat := (i % 2 ^ 32).toNat

/-- Embedding of `PHP_METHOD(swoole_server, bind)` (lines 3497-3530): a
stopped server, an out-of-range uid (above `UINT32_MAX` or below
`INT32_MIN`), or an untracked connection fail; otherwise, under the
connection spinlock, a non-zero current uid fails and leaves the connection
unchanged, and a zero current uid is overwritten with the truncated uid and
the call succeeds. -/
def swoole_server_bind (is_started : Bool) (conn : Option Connection) (uid : Int) :
    Bool × Option Connection :=
  if is_started = false then (false, conn)
  else if uid > 2 ^ 32 - 1 ∨ uid < -(2 ^ 31) then (false, conn)
  else
    match conn with
    | none => (false, none)
    | some c =>
        if c.uid ≠ 0 then (false, some c)
        else (true, some { c with uid := toUInt32 uid })

/-- C8: for a tracked connection and an in-range uid, `bind` succeeds and
sets the uid exactly when the current uid is 0; a non-zero uid makes it
fail with the connection unchanged; and after a successful bind with a
non-zero uid value, any second bind attempt on the same connection fails —
the first writer wins. -/
theorem swoole_server_bind_cas (c : Connection) (uid : Int)
    (hlo : -(2 ^ 31) ≤ uid) (hhi : uid ≤ 2 ^ 32 - 1) :
    ((swoole_server_bind true (some c) uid).1 = true ↔ c.uid = 0) ∧
    (c.uid = 0 →
      (swoole_server_bind true (some c) uid).2 = some { c with uid := toUInt32 uid }) ∧
    (c.uid ≠ 0 → swoole_server_bind true (some c) uid = (false, some c)) ∧
    (∀ uid2, c.uid = 0 → toUInt32 uid ≠ 0 →
      (swoole_server_bind true ((swoole_server_bind true (some c) uid).2) uid2).1 = false) := by
  have hrange : ¬ (uid > 2 ^ 32 - 1 ∨ uid < -(2 ^ 31)) := by omega
  refine ⟨?_, ?_, ?_, ?_⟩
  · unfold swoole_server_bind
    simp only [if_neg hrange]
    by_cases hc : c.uid = 0
    · simp [hc]
    · simp [hc]
  · intro hc
    unfold swoole_server_bind
    simp only [if_neg hrange]
    simp [hc]
  · intro hc
    unfold swoole_server_bind
    simp only [if_neg hrange]
    simp [hc]
  · intro uid2 hc hnz
    have hfst : (swoole_server_bind true (some c) uid).2 =
        some { c with uid := toUInt32 uid } := by
      unfold swoole_server_bind
      simp only [if_neg hrange]
      simp [hc]
    rw [hfst]
    unfold swoole_server_bind
    by_cases hr2 : uid2 > 2 ^ 32 - 1 ∨ uid2 < -(2 ^ 31)
    · simp only [Bool.true_eq_false, if_false, if_pos hr2]
    · simp only [Bool.true_eq_false, if_false, if_neg hr2, if_pos hnz]

/-- C8 witness: binding uid 7 onto a fresh connection succeeds; a second
attempt with uid 9 fails. -/
theorem swoole_server_bind_cas_witness :
    ((swoole_server_bind true (some ⟨1, 0, false, 0, false⟩) 7).1 = true ↔
      (⟨1, 0, false, 0, false⟩ : Connection).uid = 0) ∧
    ((⟨1, 0, false, 0, false⟩ : Connection).uid = 0 →
      (swoole_server_bind true (some ⟨1, 0, false, 0, false⟩) 7).2 =
        some { (⟨1, 0, false, 0, false⟩ : Connection) with uid := toUInt32 7 }) ∧
    ((⟨1, 0, false, 0, false⟩ : Connection).uid ≠ 0 →
      swoole_server_bind true (some ⟨1, 0, false, 0, false⟩) 7 =
        (false, some ⟨1, 0, false, 0, false⟩)) ∧
    (∀ uid2, (⟨1, 0, false, 0, false⟩ : Connection).uid = 0 → toUInt32 7 ≠ 0 →
      (swoole_server_bind true
        ((swoole_server_bind true (some ⟨1, 0, false, 0, false⟩) 7).2) uid2).1 = false) :=
  swoole_server_bind_cas ⟨1, 0, false, 0, false⟩ 7 (by omega) (by omega)

/-- Modelled from the spec: `Server::is_healthy_connection` (core server,
not under src/) — a connection is healthy when protected or when its idle
time does not exceed the configured idle threshold. -/
def is_healthy_connection (now threshold : Int) (conn : Connection) : Bool :=
  conn.protect || (now - conn.last_recv_time ≤ threshold)

/-- Walk of `serv->foreach_connection` inside
`PHP_METHOD(swoole_server, heartbeat)` (lines 3055-3069): connections with
`session_id <= 0` are skipped, healthy ones are skipped, the rest are
reported (second component) and — when `close_connection` is set —
force-closed (first component). -/
def heartbeat_walk (now threshold : Int) (close_connection : Bool) :
    List Connection → List Int × List Int
  | [] => ([], [])
  | conn :: rest =>
      let r := heartbeat_walk now threshold close_connection rest
      if conn.session_id ≤ 0 then r
      else if is_healthy_connection now threshold conn then r
      else if close_connection then (conn.session_id :: r.1, conn.session_id :: r.2)
      else (r.1, conn.session_id :: r.2)

/-- Embedding of `PHP_METHOD(swoole_server, heartbeat)` (lines 3034-3070):
a stopped server or a heartbeat interval below 1 yields `false` (`none`);
otherwise the sweep returns the closed and reported session-id lists. -/
def swoole_server_heartbeat (is_started : Bool) (heartbeat_check_interval : Int)
    (close_connection : Bool) (conns : List Connection) (now : Int) :
    Option (List Int × List Int) :=
  if is_started = false then none
  else if heartbeat_check_interval < 1 then none
  else some (heartbeat_walk now heartbeat_check_interval close_connection conns)

theorem mem_heartbeat_reported (now threshold : Int) (close_connection : Bool)
    (conns : List Connection) (x : Int) :
    x ∈ (heartbeat_walk now threshold close_connection conns).2 ↔
      ∃ c ∈ conns, c.session_id = x ∧ 0 < c.session_id ∧
        is_healthy_connection now threshold c = false := by
  induction conns with
  | nil => simp [heartbeat_walk]
  | cons conn rest ih =>
      simp only [heartbeat_walk]
      by_cases h1 : conn.session_id ≤ 0
      · rw [if_pos h1]
        constructor
        · intro hx
          obtain ⟨c, hcmem, hcx⟩ := ih.mp hx
          exact ⟨c, List.mem_cons_of_mem _ hcmem, hcx⟩
        · rintro ⟨c, hcmem, hcx, hcpos, hch⟩
          rcases List.mem_cons.mp hcmem with hceq | hcmem2
          · subst hceq; omega
          · exact ih.mpr ⟨c, hcmem2, hcx, hcpos, hch⟩
      · rw [if_neg h1]
        by_cases h2 : is_healthy_connection now threshold conn = true
        · rw [if_pos h2]
          constructor
          · intro hx
            obtain ⟨c, hcmem, hcx⟩ := ih.mp hx
            exact ⟨c, List.mem_cons_of_mem _ hcmem, hcx⟩
          · rintro ⟨c, hcmem, hcx, hcpos, hch⟩
            rcases List.mem_cons.mp hcmem with hceq | hcmem2
            · subst hceq; rw [h2] at hch; exact absurd hch (by decide)
            · exact ih.mpr ⟨c, hcmem2, hcx, hcpos, hch⟩
        · rw [if_neg h2]
          have h2f : is_healthy_connection now threshold conn = false :=
            Bool.eq_false_iff.mpr h2
          have hgen : x ∈ conn.session_id :: (heartbeat_walk now threshold
              close_connection rest).2 ↔
              ∃ c ∈ conn :: rest, c.session_id = x ∧ 0 < c.session_id ∧
                is_healthy_connection now threshold c = false := by
            simp only [List.mem_cons]
            constructor
            · rintro (rfl | hx)
              · exact ⟨conn, Or.inl rfl, rfl, by omega, h2f⟩
              · obtain ⟨c, hcmem, hcx⟩ := ih.mp hx
                exact ⟨c, Or.inr hcmem, hcx⟩
            · rintro ⟨c, hcmem, hcx, hcpos, hch⟩
              rcases hcmem with hceq | hcmem2
              · subst hceq; exact Or.inl hcx.symm
              · exact Or.inr (ih.mpr ⟨c, hcmem2, hcx, hcpos, hch⟩)
          by_cases h3 : close_connection = true
          · rw [if_pos h3]; exact hgen
          · rw [if_neg h3]; exact hgen

theorem mem_heartbeat_closed (now threshold : Int) (close_connection : Bool)
    (conns : List Connection) (x : Int) :
    x ∈ (heartbeat_walk now threshold close_connection conns).1 ↔
      close_connection = true ∧
      x ∈ (heartbeat_walk now threshold close_connection conns).2 := by
  induction conns with
  | nil => simp [heartbeat_walk]
  | cons conn rest ih =>
      simp only [heartbeat_walk]
      by_cases h1 : conn.session_id ≤ 0
      · rw [if_pos h1]; exact ih
      · rw [if_neg h1]
        by_cases h2 : is_healthy_connection now threshold conn = true
        · rw [if_pos h2]; exact ih
        · rw [if_neg h2]
          by_cases h3 : close_connection = true
          · rw [if_pos h3]
            simp only [List.mem_cons]
            constructor
            · rintro (rfl | hx)
              · exact ⟨h3, Or.inl rfl⟩
              · obtain ⟨hcl, hx2⟩ := ih.mp hx
                exact ⟨hcl, Or.inr hx2⟩
            · rintro ⟨hcl, rfl | hx⟩
              · exact Or.inl rfl
              · exact Or.inr (ih.mpr ⟨hcl, hx⟩)
          · rw [if_neg h3]
            constructor
            · intro hx
              exact absurd (ih.mp hx).1 h3
            · rintro ⟨hcl, _⟩
              exact absurd hcl h3

/-- C7: when the heartbeat interval is at least 1 and session ids are
unique, the sweep returns a result in which no connection with
`session_id <= 0` or with the protect flag appears among the reported or
closed ids, and — when `close_connection` is set — every unprotected bound
connection whose idle time strictly exceeds the threshold is closed and
reported. -/
theorem swoole_server_heartbeat_contract (interval now : Int) (close_connection : Bool)
    (conns : List Connection) (hint : 1 ≤ interval)
    (hnodup : (conns.map Connection.session_id).Nodup) :
    ∃ res, swoole_server_heartbeat true interval close_connection conns now = some res ∧
      (∀ c ∈ conns, (c.session_id ≤ 0 ∨ c.protect = true) →
        c.session_id ∉ res.2 ∧ c.session_id ∉ res.1) ∧
      (close_connection = true → ∀ c ∈ conns, 0 < c.session_id → c.protect = false →
        now - c.last_recv_time > interval →
        c.session_id ∈ res.1 ∧ c.session_id ∈ res.2) := by
  refine ⟨heartbeat_walk now interval close_connection conns, ?_, ?_, ?_⟩
  · unfold swoole_server_heartbeat
    rw [if_neg (by decide : ¬ (true = false)), if_neg (by omega : ¬ (interval < 1))]
  · intro c hc hskip
    have hrep : c.session_id ∉ (heartbeat_walk now interval close_connection conns).2 := by
      intro hmem
      obtain ⟨c2, hc2mem, hc2x, hc2pos, hc2h⟩ :=
        (mem_heartbeat_reported now interval close_connection conns c.session_id).mp hmem
      rcases hskip with hneg | hpro
      · omega
      · have hcc : c2 = c := List.inj_on_of_nodup_map hnodup hc2mem hc hc2x
        subst hcc
        rw [is_healthy_connection, hpro] at hc2h
        simp at hc2h
    refine ⟨hrep, ?_⟩
    intro hmem
    exact hrep ((mem_heartbeat_closed now interval close_connection conns c.session_id).mp
      hmem).2
  · intro hclose c hc hpos hpro hidle
    have hh : is_healthy_connection now interval c = false := by
      rw [is_healthy_connection, hpro]
      simp only [Bool.false_or, decide_eq_false_iff_not]
      omega
    have hrep : c.session_id ∈ (heartbeat_walk now interval close_connection conns).2 :=
      (mem_heartbeat_reported now interval close_connection conns c.session_id).mpr
        ⟨c, hc, rfl, hpos, hh⟩
    exact ⟨(mem_heartbeat_closed now interval close_connection conns c.session_id).mpr
      ⟨hclose, hrep⟩, hrep⟩

/-- C7 witness: two connections, one idle past the threshold and one
protected; the sweep closes and reports only the idle one. -/
theorem swoole_server_heartbeat_contract_witness :
    ∃ res, swoole_server_heartbeat true 3 true
        [⟨1, 0, false, 0, false⟩, ⟨2, 0, true, 0, false⟩] 10 = some res ∧
      (∀ c ∈ [(⟨1, 0, false, 0, false⟩ : Connection), ⟨2, 0, true, 0, false⟩],
        (c.session_id ≤ 0 ∨ c.protect = true) →
        c.session_id ∉ res.2 ∧ c.session_id ∉ res.1) ∧
      (true = true → ∀ c ∈ [(⟨1, 0, false, 0, false⟩ : Connection), ⟨2, 0, true, 0, false⟩],
        0 < c.session_id → c.protect = false → 10 - c.last_recv_time > 3 →
        c.session_id ∈ res.1 ∧ c.session_id ∈ res.2) :=
  swoole_server_heartbeat_contract 3 10 true
    [⟨1, 0, false, 0, false⟩, ⟨2, 0, true, 0, false⟩] (by omega) (by decide)

/-! ## CommandBus registration (PHP_METHOD swoole_server addCommand) -/

/-- Modelled from the spec: the reactor-thread bit of
`Server::Command::ProcessType` (declared in headers outside src/), one bit
of the accepted-process-type bitmask over manager / reactor-thread /
event-worker / task-worker. -/
def Command_REACTOR_THREAD : Nat := 2

/-- Embedding of `PHP_METHOD(swoole_server, addCommand)` (lines 2592-2646):
a running server, a mask containing the reactor-thread bit, a failed
callable creation, or a failed core registration each return `false`
without touching the registered-command list; otherwise the command is
registered and `true` is returned.  `core_add_ok` models the outcome of
`serv->add_command`. -/
def swoole_server_addCommand (is_started : Bool) (name : String)
    (accepted_process_types : Nat) (callable_ok core_add_ok : Bool)
    (commands : List String) : Bool × List String :=
  if is_started then (false, commands)
  else if hasFlag accepted_process_types Command_REACTOR_THREAD then (false, commands)
  else if callable_ok = false then (false, commands)
  else if core_add_ok = false then (false, commands)
  else (true, name :: commands)

/-- Outcome of invoking the user command handler from the wrapper lambda
registered by `addCommand`: the engine call failed, or it returned a
string, or a non-string value. -/
inductive CommandCallResult where
  | callFailed
  | retString (s : String)
  | retNonString
deriving DecidableEq, Repr

/-- Embedding of the handler wrapper lambda inside `addCommand`
(lines 2620-2637): a failed call and a non-string return each produce a
structured JSON error payload; a string return is passed through. -/
def command_handler_wrapper : CommandCallResult → String
  | .callFailed => "\x7b\"data\": \"failed to call function\", \"code\": -1\x7d"
  | .retNonString => "\x7b\"data\": \"wrong return type\", \"code\": -2\x7d"
  | .retString s => s

/-- C9: before the server starts, any command whose accepted-process-type
mask contains the reactor-thread bit is rejected with `false` and the
command list unchanged (regardless of the remaining inputs); and the
handler wrapper turns a failed call or a non-string return into the
structured JSON error payloads instead of a silent success. -/
theorem swoole_server_addCommand_contract (name : String)
    (accepted_process_types : Nat) (callable_ok core_add_ok : Bool)
    (commands : List String)
    (hmask : hasFlag accepted_process_types Command_REACTOR_THREAD = true) :
    swoole_server_addCommand false name accepted_process_types callable_ok
        core_add_ok commands = (false, commands) ∧
    command_handler_wrapper .callFailed =
      "\x7b\"data\": \"failed to call function\", \"code\": -1\x7d" ∧
    command_handler_wrapper .retNonString =
      "\x7b\"data\": \"wrong return type\", \"code\": -2\x7d" ∧
    (∀ s, command_handler_wrapper (.retString s) = s) := by
  refine ⟨?_, rfl, rfl, fun s => rfl⟩
  unfold swoole_server_addCommand
  rw [if_neg (by decide : ¬ (false = true)), if_pos hmask]

/-- C9 witness: a mask of reactor-thread alone is rejected. -/
theorem swoole_server_addCommand_contract_witness :
    swoole_server_addCommand false "stats" 2 true true [] = (false, []) ∧
    command_handler_wrapper .callFailed =
      "\x7b\"data\": \"failed to call function\", \"code\": -1\x7d" ∧
    command_handler_wrapper .retNonString =
      "\x7b\"data\": \"wrong return type\", \"code\": -2\x7d" ∧
    (∀ s, command_handler_wrapper (.retString s) = s) :=
  swoole_server_addCommand_contract "stats" 2 true true [] (by decide)

/-! ## SignalBridge (src/src/os/signal.cc) -/

/-- Size of the fixed `signals` array (`SW_SIGNO_MAX`, a macro declared in
headers outside src/). -/
def SW_SIGNO_MAX : Nat := 128

/-- C signal-handler values: a user function pointer, the special `SIG_IGN`
and `SIG_DFL` dispositions, or one of the two internal trampolines
(`signal_handler_safety`, `signal_handler_simple`). -/
inductive CSignalHandler where
  | user (n : Nat)
  | sigIgn
  | sigDfl
  | trampolineSafety
  | trampolineSimple
deriving DecidableEq, Repr

/-- One slot of the `signals` table (`struct Signal`): handler reference,
recorded signal number, activated flag. -/
structure Signal where
  handler : Option CSignalHandler
  signo : Nat
  activated : Bool
deriving DecidableEq, Repr

/-- A zeroed slot (`sw_memset_zero(&signals[signo], sizeof(Signal))`). -/
def emptySignal : Signal := ⟨none, 0, false⟩

/-- Pointwise update of a table. -/
def setFun {α : Type} (f : Nat → α) (i : Nat) (v : α) : Nat → α :=
  fun j => if j = i then v else f j

theorem setFun_eval_self {α : Type} (f : Nat → α) (i : Nat) (v : α) :
    setFun f i v i = v := by simp [setFun]

/-- Bounds-aware write into the fixed-size `signals` array: the C code
indexes `signals[signo]` unconditionally, which is defined behaviour only
for `signo < SW_SIGNO_MAX`; an out-of-bounds write has no defined result
(`none`). -/
def signalsWrite (tbl : Nat → Signal) (signo : Nat) (s : Signal) :
    Option (Nat → Signal) :=
  if signo < SW_SIGNO_MAX then some (setFun tbl signo s) else none

/-! ### signalfd backend -/

/-- State of the signalfd backend: the `signals` table and the blocked
signal set `signalfd_mask`. -/
structure SignalfdState where
  signals : Nat → Signal
  mask : Nat → Bool

/-- Embedding of `swoole_signalfd_set` (lines 270-291): unregistering an
activated slot removes the signal from the mask and zeroes the slot;
every other call (including unregistering a non-activated slot) adds the
signal to the mask, records the handler with `activated = true`, and
returns the previous handler reference. -/
def swoole_signalfd_set (signo : Nat) (handler : Option CSignalHandler)
    (st : SignalfdState) : Option CSignalHandler × SignalfdState :=
  if handler = none ∧ (st.signals signo).activated = true then
    (none, { signals := setFun st.signals signo emptySignal,
             mask := setFun st.mask signo false })
  else
    ((st.signals signo).handler,
     { signals := setFun st.signals signo ⟨handler, signo, true⟩,
       mask := setFun st.mask signo true })

/-! ### kqueue backend -/

/-- State of the kqueue backend: the `signals` table, the OS-level
disposition installed through `signal()`, and the set of registered
`EVFILT_SIGNAL` filters. -/
structure KqueueState where
  signals : Nat → Signal
  os : Nat → CSignalHandler
  kq : Nat → Bool

/-- Embedding of `swoole_signal_kqueue_set` (lines 397-429): a null handler
restores `SIG_DFL`, zeroes the slot and deletes the kevent filter (a failed
delete is silent); a non-null handler sets `SIG_IGN`, records the handler
with `activated = true`, adds the filter, and returns the previous handler
reference. -/
def swoole_signal_kqueue_set (signo : Nat) (handler : Option CSignalHandler)
    (st : KqueueState) : Option CSignalHandler × KqueueState :=
  match handler with
  | none =>
      (none, { signals := setFun st.signals signo emptySignal,
               os := setFun st.os signo .sigDfl,
               kq := setFun st.kq signo false })
  | some h =>
      ((st.signals signo).handler,
       { signals := setFun st.signals signo ⟨some h, signo, true⟩,
         os := setFun st.os signo .sigIgn,
         kq := setFun st.kq signo true })

/-! ### classic backend -/

/-- State of the classic backend: the `signals` table and the OS-level
disposition installed through `sigaction`. -/
structure ClassicState where
  signals : Nat → Signal
  os : Nat → CSignalHandler

/-- Argument of the low-level four-argument `swoole_signal_set` overload:
a null pointer, the special `(SignalHandler)-1` value, or a function. -/
inductive SetFuncArg where
  | noHandler
  | minusOne
  | fn (h : CSignalHandler)
deriving DecidableEq, Repr

/-- Embedding of the four-argument `swoole_signal_set` overload
(lines 115-145): null maps to `SIG_IGN`, `-1` to `SIG_DFL`; for `SIG_IGN`
or `SIG_DFL` the table slot's handler is nulled and deactivated (an
unchecked `signals[signo]` write); then `sigaction` installs the handler
and the previous OS disposition is returned. -/
def swoole_signal_set_impl (signo : Nat) (func : SetFuncArg) (st : ClassicState) :
    Option (CSignalHandler × ClassicState) :=
  let f : CSignalHandler :=
    match func with
    | .noHandler => .sigIgn
    | .minusOne => .sigDfl
    | .fn h => h
  if f = .sigIgn ∨ f = .sigDfl then
    match signalsWrite st.signals signo
        ⟨none, (st.signals signo).signo, false⟩ with
    | none => none
    | some tbl2 => some (st.os signo, { signals := tbl2, os := setFun st.os signo f })
  else
    some (st.os signo, { signals := st.signals, os := setFun st.os signo f })

/-- Embedding of the classic branch of the three-argument
`swoole_signal_set` (lines 154-173, reached when neither signalfd nor
kqueue is selected): the slot is overwritten with the handler and
`activated = true` — an unchecked `signals[signo]` write — and the
matching trampoline is installed through the four-argument overload, whose
return value (the previous OS disposition) is passed through. -/
def swoole_signal_set_classic (signo : Nat) (handler : Option CSignalHandler)
    (safety : Bool) (st : ClassicState) : Option (CSignalHandler × ClassicState) :=
  match signalsWrite st.signals signo ⟨handler, signo, true⟩ with
  | none => none
  | some tbl2 =>
      swoole_signal_set_impl signo
        (.fn (if safety then .trampolineSafety else .trampolineSimple))
        { st with signals := tbl2 }

/-! ### dispatch path -/

/-- Observable outcome of `swoole_signal_callback`. -/
inductive CallbackOutcome where
  | invalidWarning
  | unregisteredWarning
  | ignored
  | invoked (h : CSignalHandler)
deriving DecidableEq, Repr

/-- Embedding of `swoole_signal_callback` (lines 208-223): a signal number
at or beyond `SW_SIGNO_MAX` is rejected with a warning before any table
access; a null handler gives the unregistered-signal warning; `SIG_IGN` and
`SIG_DFL` are skipped; otherwise the handler is invoked. -/
def swoole_signal_callback (signo : Nat) (signals : Nat → Signal) : CallbackOutcome :=
  if signo ≥ SW_SIGNO_MAX then .invalidWarning
  else
    match (signals signo).handler with
    | none => .unregisteredWarning
    | some h => if h = .sigIgn ∨ h = .sigDfl then .ignored else .invoked h

theorem setFun_eq_of_eval {α : Type} (f : Nat → α) (i : Nat) (v : α) (h : f i = v) :
    setFun f i v = f := by
  funext j
  unfold setFun
  by_cases hj : j = i
  · rw [if_pos hj, hj, h]
  · rw [if_neg hj]

/-- A zeroed classic-backend state: empty table, default dispositions. -/
def initClassicState : ClassicState := ⟨fun _ => emptySignal, fun _ => .sigDfl⟩

/-- C6 counterexample: registering a handler for `signo = SW_SIGNO_MAX`
through the classic registration path is not rejected with the table
unchanged — the path performs an unchecked `signals[signo]` write whose
index is out of bounds (no defined result, modelled `none`). -/
theorem swoole_signal_set_oob_counterexample :
    swoole_signal_set_classic SW_SIGNO_MAX (some (.user 0)) true initClassicState = none ∧
    signalsWrite initClassicState.signals SW_SIGNO_MAX
      ⟨some (.user 0), SW_SIGNO_MAX, true⟩ = none := by
  constructor
  · rfl
  · rfl

/-- C6 (amended): the registration path `swoole_signal_set` performs no
range check — its unconditional `signals[signo]` write is in bounds exactly
when `signo < SW_SIGNO_MAX`, and for larger signal numbers the write is out
of bounds rather than a rejection; the dispatch path
`swoole_signal_callback` does reject out-of-range signal numbers with a
warning before any table access. -/
theorem swoole_signal_set_bounds (signo : Nat) (handler : Option CSignalHandler)
    (safety : Bool) (st : ClassicState) :
    (signo < SW_SIGNO_MAX →
      ∃ r, swoole_signal_set_classic signo handler safety st = some r) ∧
    (SW_SIGNO_MAX ≤ signo →
      swoole_signal_set_classic signo handler safety st = none) ∧
    (SW_SIGNO_MAX ≤ signo →
      swoole_signal_callback signo st.signals = .invalidWarning) := by
  refine ⟨?_, ?_, ?_⟩
  · intro hlt
    unfold swoole_signal_set_classic signalsWrite
    rw [if_pos hlt]
    cases safety with
    | true => exact ⟨_, rfl⟩
    | false => exact ⟨_, rfl⟩
  · intro hge
    unfold swoole_signal_set_classic signalsWrite
    rw [if_neg (by omega)]
  · intro hge
    unfold swoole_signal_callback
    rw [if_pos hge]

/-- C6 witness: an in-range registration (signo 3) is defined; an
out-of-range one (signo 200) is an out-of-bounds write, and the dispatch
path rejects signo 200 with the invalid-signal warning. -/
theorem swoole_signal_set_bounds_witness :
    (∃ r, swoole_signal_set_classic 3 (some (.user 1)) true initClassicState = some r) ∧
    swoole_signal_set_classic 200 (some (.user 1)) true initClassicState = none ∧
    swoole_signal_callback 200 initClassicState.signals = .invalidWarning :=
  ⟨(swoole_signal_set_bounds 3 (some (.user 1)) true initClassicState).1 (by decide),
   (swoole_signal_set_bounds 200 (some (.user 1)) true initClassicState).2.1 (by decide),
   (swoole_signal_set_bounds 200 (some (.user 1)) true initClassicState).2.2 (by decide)⟩

/-- A signalfd-backend state with one registered user handler at signal 10,
used by the C5 counterexample and witness. -/
def sfdRegistered : SignalfdState :=
  ⟨setFun (fun _ => emptySignal) 10 ⟨some (.user 7), 10, true⟩,
   setFun (fun _ => false) 10 true⟩

/-- A kqueue-backend state with one registered user handler at signal 10. -/
def kqRegistered : KqueueState :=
  ⟨setFun (fun _ => emptySignal) 10 ⟨some (.user 7), 10, true⟩,
   setFun (fun _ => .sigIgn) 10 .sigIgn,
   setFun (fun _ => false) 10 true⟩

/-- C5 counterexample: under the signalfd backend, unregistering signal 10
twice is not a no-op — the first call clears the slot and removes the
signal from the blocked mask, but the second call re-marks the slot
activated (with a null handler) and re-adds the signal to the blocked
mask. -/
theorem signal_unregister_twice_counterexample :
    ((swoole_signalfd_set 10 none sfdRegistered).2.signals 10).activated = false ∧
    (swoole_signalfd_set 10 none sfdRegistered).2.mask 10 = false ∧
    ((swoole_signalfd_set 10 none
        (swoole_signalfd_set 10 none sfdRegistered).2).2.signals 10).activated = true ∧
    (swoole_signalfd_set 10 none
        (swoole_signalfd_set 10 none sfdRegistered).2).2.mask 10 = true := by
  refine ⟨?_, ?_, ?_, ?_⟩ <;> decide

theorem signalfd_set_none_activated (signo : Nat) (st : SignalfdState)
    (hs : (st.signals signo).activated = true) :
    swoole_signalfd_set signo none st =
      (none, ⟨setFun st.signals signo emptySignal, setFun st.mask signo false⟩) := by
  unfold swoole_signalfd_set
  rw [if_pos ⟨rfl, hs⟩]

theorem signalfd_set_none_inactive (signo : Nat) (st : SignalfdState)
    (hs : (st.signals signo).activated = false) :
    swoole_signalfd_set signo none st =
      ((st.signals signo).handler,
       ⟨setFun st.signals signo ⟨none, signo, true⟩, setFun st.mask signo true⟩) := by
  unfold swoole_signalfd_set
  have hc : ¬ ((none : Option CSignalHandler) = none ∧
      (st.signals signo).activated = true) := by
    rintro ⟨-, hact⟩
    rw [hs] at hact
    exact absurd hact (by decide)
  rw [if_neg hc]

theorem classic_set_none (signo : Nat) (safety : Bool) (st : ClassicState)
    (hlt : signo < SW_SIGNO_MAX) :
    swoole_signal_set_classic signo none safety st =
      some (st.os signo,
        ⟨setFun st.signals signo ⟨none, signo, true⟩,
         setFun st.os signo
           (if safety then CSignalHandler.trampolineSafety else .trampolineSimple)⟩) := by
  unfold swoole_signal_set_classic signalsWrite
  rw [if_pos hlt]
  cases safety with
  | true => rfl
  | false => rfl

/-- C5 (amended): starting from a registered handler, the first unregister
clears the slot under signalfd (also clearing the mask bit) and under
kqueue, while the classic backend leaves the slot activated with a null
handler.  A second unregister: under signalfd it returns no previous
handler but re-adds the signal to the blocked mask and re-marks the slot
activated with a null handler; under kqueue it is a no-op on the whole
backend state and returns no previous handler; under classic it leaves
the table and OS dispositions unchanged but returns the previously
installed internal trampoline rather than no handler. -/
theorem signal_unregister_twice (signo : Nat) (h : CSignalHandler) (safety : Bool)
    (sfd : SignalfdState) (kq : KqueueState) (cls : ClassicState)
    (hlt : signo < SW_SIGNO_MAX)
    (hsfd : sfd.signals signo = ⟨some h, signo, true⟩)
    (hkq : kq.signals signo = ⟨some h, signo, true⟩) :
    ((swoole_signalfd_set signo none sfd).2.signals signo = emptySignal ∧
     (swoole_signalfd_set signo none sfd).2.mask signo = false) ∧
    ((swoole_signalfd_set signo none (swoole_signalfd_set signo none sfd).2).1 = none ∧
     (swoole_signalfd_set signo none
        (swoole_signalfd_set signo none sfd).2).2.signals signo = ⟨none, signo, true⟩ ∧
     (swoole_signalfd_set signo none
        (swoole_signalfd_set signo none sfd).2).2.mask signo = true) ∧
    ((swoole_signal_kqueue_set signo none kq).2.signals signo = emptySignal ∧
     (swoole_signal_kqueue_set signo none
        (swoole_signal_kqueue_set signo none kq).2).1 = none ∧
     (swoole_signal_kqueue_set signo none
        (swoole_signal_kqueue_set signo none kq).2).2.signals =
       (swoole_signal_kqueue_set signo none kq).2.signals ∧
     (swoole_signal_kqueue_set signo none
        (swoole_signal_kqueue_set signo none kq).2).2.os =
       (swoole_signal_kqueue_set signo none kq).2.os ∧
     (swoole_signal_kqueue_set signo none
        (swoole_signal_kqueue_set signo none kq).2).2.kq =
       (swoole_signal_kqueue_set signo none kq).2.kq) ∧
    (∃ r1 st1 r2 st2,
      swoole_signal_set_classic signo none safety cls = some (r1, st1) ∧
      st1.signals signo = ⟨none, signo, true⟩ ∧
      swoole_signal_set_classic signo none safety st1 = some (r2, st2) ∧
      r2 = (if safety then CSignalHandler.trampolineSafety else .trampolineSimple) ∧
      st2.signals = st1.signals ∧ st2.os = st1.os) := by
  have hact : (sfd.signals signo).activated = true := by rw [hsfd]
  have hA := signalfd_set_none_activated signo sfd hact
  have hA2 : ((swoole_signalfd_set signo none sfd).2.signals signo).activated = false := by
    rw [hA]
    show (setFun sfd.signals signo emptySignal signo).activated = false
    rw [setFun_eval_self]
    rfl
  have hB := signalfd_set_none_inactive signo _ hA2
  refine ⟨⟨?_, ?_⟩, ⟨?_, ?_, ?_⟩, ⟨?_, ?_, ?_, ?_, ?_⟩, ?_⟩
  · rw [hA]
    exact setFun_eval_self _ _ _
  · rw [hA]
    exact setFun_eval_self _ _ _
  · rw [hB, hA]
    show (setFun sfd.signals signo emptySignal signo).handler = none
    rw [setFun_eval_self]
    rfl
  · rw [hB]
    exact setFun_eval_self _ _ _
  · rw [hB]
    exact setFun_eval_self _ _ _
  · show setFun kq.signals signo emptySignal signo = emptySignal
    exact setFun_eval_self _ _ _
  · rfl
  · show setFun (setFun kq.signals signo emptySignal) signo emptySignal =
      setFun kq.signals signo emptySignal
    exact setFun_eq_of_eval _ _ _ (setFun_eval_self _ _ _)
  · show setFun (setFun kq.os signo .sigDfl) signo .sigDfl = setFun kq.os signo .sigDfl
    exact setFun_eq_of_eval _ _ _ (setFun_eval_self _ _ _)
  · show setFun (setFun kq.kq signo false) signo false = setFun kq.kq signo false
    exact setFun_eq_of_eval _ _ _ (setFun_eval_self _ _ _)
  · refine ⟨cls.os signo,
      ⟨setFun cls.signals signo ⟨none, signo, true⟩,
       setFun cls.os signo
         (if safety then CSignalHandler.trampolineSafety else .trampolineSimple)⟩,
      _, _, classic_set_none signo safety cls hlt, setFun_eval_self _ _ _,
      classic_set_none signo safety _ hlt, ?_, ?_, ?_⟩
    · exact setFun_eval_self _ _ _
    · exact setFun_eq_of_eval _ _ _ (setFun_eval_self _ _ _)
    · exact setFun_eq_of_eval _ _ _ (setFun_eval_self _ _ _)

/-- C5 witness: instantiating `signal_unregister_twice` at signal 10 with
the registered states `sfdRegistered` and `kqRegistered` and a zeroed
classic state. -/
theorem signal_unregister_twice_witness :
    ((swoole_signalfd_set 10 none sfdRegistered).2.signals 10 = emptySignal ∧
     (swoole_signalfd_set 10 none sfdRegistered).2.mask 10 = false) ∧
    ((swoole_signalfd_set 10 none (swoole_signalfd_set 10 none sfdRegistered).2).1 = none ∧
     (swoole_signalfd_set 10 none
        (swoole_signalfd_set 10 none sfdRegistered).2).2.signals 10 = ⟨none, 10, true⟩ ∧
     (swoole_signalfd_set 10 none
        (swoole_signalfd_set 10 none sfdRegistered).2).2.mask 10 = true) ∧
    ((swoole_signal_kqueue_set 10 none kqRegistered).2.signals 10 = emptySignal ∧
     (swoole_signal_kqueue_set 10 none
        (swoole_signal_kqueue_set 10 none kqRegistered).2).1 = none ∧
     (swoole_signal_kqueue_set 10 none
        (swoole_signal_kqueue_set 10 none kqRegistered).2).2.signals =
       (swoole_signal_kqueue_set 10 none kqRegistered).2.signals ∧
     (swoole_signal_kqueue_set 10 none
        (swoole_signal_kqueue_set 10 none kqRegistered).2).2.os =
       (swoole_signal_kqueue_set 10 none kqRegistered).2.os ∧
     (swoole_signal_kqueue_set 10 none
        (swoole_signal_kqueue_set 10 none kqRegistered).2).2.kq =
       (swoole_signal_kqueue_set 10 none kqRegistered).2.kq) ∧
    (∃ r1 st1 r2 st2,
      swoole_signal_set_classic 10 none true initClassicState = some (r1, st1) ∧
      st1.signals 10 = ⟨none, 10, true⟩ ∧
      swoole_signal_set_classic 10 none true st1 = some (r2, st2) ∧
      r2 = (if true then CSignalHandler.trampolineSafety else .trampolineSimple) ∧
      st2.signals = st1.signals ∧ st2.os = st1.os) :=
  signal_unregister_twice 10 (.user 7) true sfdRegistered kqRegistered initClassicState
    (by decide) (by decide) (by decide)

/-! ## Task completion tracking (task_coroutine_map, onFinish, taskwait, taskCo) -/

/-- Upper bound on concurrent tasks in one join (`SW_MAX_CONCURRENT_TASK`,
declared in headers outside src/). -/
def SW_MAX_CONCURRENT_TASK : Nat := 1024

/-- One entry of the taskCo result array: a delivered task result or the
explicit `false` failure marker (`add_index_bool(return_value, i, 0)`). -/
inductive ZRes where
  | ok (v : ZValue)
  | failMarker
deriving DecidableEq, Repr

/-- Number of populated entries of the result array
(`php_swoole_array_length(task_co->result)`). -/
def zarr_length (l : List (Option ZRes)) : Nat := (l.filterMap id).length

/-- State of one waiter (a `TaskCo` together with the entries of
`task_coroutine_map` that point at it, plus the observable effects of the
completion path):
`tracked` — task ids currently present in `task_coroutine_map`;
`single` — whether `task_co.list == nullptr` (`Server->taskwait`);
`co_list`/`co_count` — the `TaskCo` id array and (possibly decremented) count;
`result_multi` — the indexed result array of `taskCo` (`none` = absent index);
`result_single` — the result zval of `taskwait`;
`resumed` — number of `co->resume()` calls;
`expired_logs` / `invalid_logs` — counts of the two warning logs;
`timed_out` — whether `yield_ex` returned failure. -/
structure TaskCoState where
  tracked : List Int
  single : Bool
  co_list : List Int
  co_count : Nat
  result_multi : List (Option ZRes)
  result_single : Option ZValue
  resumed : Nat
  expired_logs : Nat
  invalid_logs : Nat
  timed_out : Bool
deriving DecidableEq, Repr

/-- Search of the C loop `SW_LOOP_N(task_co->count)` over `task_co->list`
(lines 1359-1365): index of the first of the first `count` entries equal to
`task_id`. -/
def findTaskIndex (task_id : Int) : List Int → Nat → Option Nat
  | [], _ => none
  | _ :: _, 0 => none
  | x :: rest, Nat.succ c =>
      if x = task_id then some 0 else (findTaskIndex task_id rest c).map (· + 1)

/-- Embedding of the coroutine branch of `php_swoole_server_onFinish`
(lines 1344-1378), for a completion carrying `SW_TASK_COROUTINE`: an id
absent from `task_coroutine_map` gives the task-expired warning and is
discarded; for `Server->taskwait` (null list) the result is copied and the
coroutine resumed (which erases the entry before control returns, line
3122); for `Server->taskCo` an id not among the first `count` list entries
gives the invalid-task warning; otherwise the result lands at the id's
original index, the entry is erased, and the coroutine is resumed exactly
when the result array has `count` populated entries. -/
def php_swoole_server_onFinish (task_id : Int) (payload : ZValue) (st : TaskCoState) :
    TaskCoState :=
  if task_id ∈ st.tracked then
    if st.single then
      { st with result_single := some payload,
                resumed := st.resumed + 1,
                tracked := st.tracked.erase task_id }
    else
      match findTaskIndex task_id st.co_list st.co_count with
      | none => { st with invalid_logs := st.invalid_logs + 1 }
      | some i =>
          let res2 := st.result_multi.set i (some (.ok payload))
          { st with result_multi := res2,
                    tracked := st.tracked.erase task_id,
                    resumed := if zarr_length res2 = st.co_count then st.resumed + 1
                               else st.resumed }
  else
    { st with expired_logs := st.expired_logs + 1 }

/-- Coroutine branch of `PHP_METHOD(swoole_server, taskwait)` (lines
3106-3126): after a successful dispatch the waiter is tracked under its
task id with a null list; a failed dispatch returns false without
tracking. -/
def taskwait_coroutine (task_id : Int) (dispatch_ok : Bool) : Option TaskCoState :=
  if dispatch_ok then
    some { tracked := [task_id], single := true, co_list := [], co_count := 1,
           result_multi := [], result_single := none, resumed := 0,
           expired_logs := 0, invalid_logs := 0, timed_out := false }
  else none

/-- Timeout path of `taskwait` (lines 3121-3125): when `yield_ex` fails the
tracking entry is erased and the call fails. -/
def taskwait_timeout (task_id : Int) (st : TaskCoState) : TaskCoState :=
  { st with tracked := st.tracked.erase task_id, timed_out := true }

/-- One event observed by a `taskwait` waiter: a completion arriving on the
worker (running `onFinish`), or the yield timeout firing (possible only
while the waiter is still tracked). -/
inductive TaskEvent where
  | finish (task_id : Int) (payload : ZValue)
  | timeout
deriving DecidableEq, Repr

/-- Serialized event semantics for a single `taskwait` waiter (the worker
event loop runs `onFinish` and the timeout wake-up on one thread). -/
def taskwait_step (task_id0 : Int) (st : TaskCoState) : TaskEvent → TaskCoState
  | .finish tid p => php_swoole_server_onFinish tid p st
  | .timeout => if task_id0 ∈ st.tracked then taskwait_timeout task_id0 st else st

/-- Run of a `taskwait` waiter over an event sequence. -/
def taskwait_run (task_id0 : Int) (st : TaskCoState) : List TaskEvent → TaskCoState
  | [] => st
  | e :: rest => taskwait_run task_id0 (taskwait_step task_id0 st e) rest

/-- One task of a `taskCo` call: whether its pack and dispatch succeed and
the task id assigned by packing. -/
structure TaskSpec where
  pack_ok : Bool
  dispatch_ok : Bool
  task_id : Int
deriving DecidableEq, Repr

/-- Dispatch loop of `PHP_METHOD(swoole_server, taskCo)` (lines 3242-3262):
a pack or dispatch failure stores the `false` marker at the task's index
and decrements the live count, recording `-1` in the id list; a success
tracks the id and records it in the list. -/
def taskCo_setup_go (i : Nat) (st : TaskCoState) : List TaskSpec → TaskCoState
  | [] => st
  | spec :: rest =>
      if spec.pack_ok = false then
        taskCo_setup_go (i + 1)
          { st with result_multi := st.result_multi.set i (some .failMarker),
                    co_count := st.co_count - 1,
                    co_list := st.co_list ++ [-1] } rest
      else if spec.dispatch_ok = false then
        taskCo_setup_go (i + 1)
          { st with result_multi := st.result_multi.set i (some .failMarker),
                    co_count := st.co_count - 1,
                    co_list := st.co_list ++ [-1] } rest
      else
        taskCo_setup_go (i + 1)
          { st with tracked := st.tracked ++ [spec.task_id],
                    co_list := st.co_list ++ [spec.task_id] } rest

/-- Embedding of `PHP_METHOD(swoole_server, taskCo)` (lines 3195-3271, up
to the yield): the start/worker/limit/parameter checks, then the dispatch
loop; if every dispatch failed the call returns false, otherwise the
waiter state before yielding. -/
def zim_swoole_server_taskCo (is_started is_worker : Bool) (task_worker_num : Nat)
    (caller_is_task_worker : Bool) (specs : List TaskSpec) : Option TaskCoState :=
  if is_started = false then none
  else if is_worker = false then none
  else if specs.length ≥ SW_MAX_CONCURRENT_TASK then none
  else if php_swoole_server_task_check_param task_worker_num (-1)
      caller_is_task_worker = false then none
  else
    let st := taskCo_setup_go 0
      { tracked := [], single := false, co_list := [],
        co_count := specs.length,
        result_multi := List.replicate specs.length none, result_single := none,
        resumed := 0, expired_logs := 0, invalid_logs := 0, timed_out := false } specs
    if st.co_count = 0 then none else some st

/-- One iteration of the timeout cleanup loop of `taskCo` (lines
3275-3282): an absent result index gets the `false` marker (when the
method was invoked under the name `taskCo`) and the id recorded at that
index is erased from `task_coroutine_map`. -/
def taskCo_cleanup_step (is_called_in_taskCo : Bool) (st : TaskCoState) (i : Nat) :
    TaskCoState :=
  if (st.result_multi.getD i none).isSome then st
  else
    { st with
      result_multi := if is_called_in_taskCo then st.result_multi.set i (some .failMarker)
                      else st.result_multi,
      tracked := st.tracked.erase (st.co_list.getD i (-1)) }

/-- The timeout cleanup loop over an index list. -/
def taskCo_cleanup (is_called_in_taskCo : Bool) (st : TaskCoState) :
    List Nat → TaskCoState
  | [] => st
  | i :: rest => taskCo_cleanup is_called_in_taskCo (taskCo_cleanup_step is_called_in_taskCo st i) rest

/-- Timeout path of `taskCo` (lines 3273-3283): when `yield_ex` fails, the
cleanup loop runs over the first `count` indices only. -/
def taskCo_timeout (is_called_in_taskCo : Bool) (st : TaskCoState) : TaskCoState :=
  { (taskCo_cleanup is_called_in_taskCo st (List.range st.co_count)) with timed_out := true }

/-- Consistency of a mid-join `taskCo` waiter state over the original id
array `ids`: the list and count fields are intact, the result array has one
slot per id, tracked ids are distinct, and every tracked id sits at some
original index whose result slot is still absent. -/
def JoinConsistent (ids : List Int) (st : TaskCoState) : Prop :=
  st.single = false ∧
  st.co_list = ids ∧
  st.co_count = ids.length ∧
  st.result_multi.length = ids.length ∧
  st.tracked.Nodup ∧
  (∀ x, x ∈ st.tracked → ∃ j, j < ids.length ∧ ids.getD j (-1) = x ∧
    st.result_multi.getD j none = none)

/-- Invariant of a `taskwait` waiter: it is a single-task waiter, and it is
either still tracked (no result, no timeout yet) or already erased with at
most one of result-delivery and timeout having happened. -/
def TaskwaitInv (task_id0 : Int) (st : TaskCoState) : Prop :=
  st.single = true ∧
  ((st.tracked = [task_id0] ∧ st.result_single = none ∧ st.timed_out = false) ∨
   (st.tracked = [] ∧ (st.result_single = none ∨ st.timed_out = false)))

theorem taskwait_inv_step (task_id0 : Int) (st : TaskCoState) (e : TaskEvent)
    (h : TaskwaitInv task_id0 st) : TaskwaitInv task_id0 (taskwait_step task_id0 st e) := by
  obtain ⟨hsingle, hcase⟩ := h
  cases e with
  | finish tid p =>
      show TaskwaitInv task_id0 (php_swoole_server_onFinish tid p st)
      unfold php_swoole_server_onFinish
      by_cases hmem : tid ∈ st.tracked
      · rw [if_pos hmem, if_pos hsingle]
        rcases hcase with ⟨htr, hres, hto⟩ | ⟨htr, hor⟩
        · refine ⟨hsingle, Or.inr ⟨?_, Or.inr hto⟩⟩
          show st.tracked.erase tid = []
          rw [htr] at hmem
          rw [List.mem_singleton] at hmem
          rw [htr, hmem]
          exact List.erase_cons_head _ _
        · rw [htr] at hmem
          exact absurd hmem (List.not_mem_nil tid)
      · rw [if_neg hmem]
        refine ⟨hsingle, ?_⟩
        rcases hcase with ⟨htr, hres, hto⟩ | ⟨htr, hor⟩
        · exact Or.inl ⟨htr, hres, hto⟩
        · exact Or.inr ⟨htr, hor⟩
  | timeout =>
      show TaskwaitInv task_id0
        (if task_id0 ∈ st.tracked then taskwait_timeout task_id0 st else st)
      by_cases hmem : task_id0 ∈ st.tracked
      · rw [if_pos hmem]
        rcases hcase with ⟨htr, hres, hto⟩ | ⟨htr, hor⟩
        · refine ⟨hsingle, Or.inr ⟨?_, Or.inl hres⟩⟩
          show st.tracked.erase task_id0 = []
          rw [htr]
          exact List.erase_cons_head _ _
        · rw [htr] at hmem
          exact absurd hmem (List.not_mem_nil _)
      · rw [if_neg hmem]
        exact ⟨hsingle, hcase⟩

theorem taskwait_inv_run (task_id0 : Int) (st : TaskCoState) (evs : List TaskEvent)
    (h : TaskwaitInv task_id0 st) : TaskwaitInv task_id0 (taskwait_run task_id0 st evs) := by
  induction evs generalizing st with
  | nil => exact h
  | cons e rest ih => exact ih _ (taskwait_inv_step task_id0 st e h)

/-- C1: for a tracked `taskwait` waiter, over any serialized sequence of
completion and timeout events, result delivery and timeout resume never
both happen; and once the tracking entry is gone from `task_coroutine_map`,
a completion arriving for that id only increments the task-expired warning
log — it resumes nothing and modifies no waiter result. -/
theorem taskwait_exactly_once (task_id0 tid : Int) (p : ZValue) (evs : List TaskEvent)
    (st0 : TaskCoState) (h0 : taskwait_coroutine task_id0 true = some st0) :
    ¬ ((taskwait_run task_id0 st0 evs).result_single ≠ none ∧
       (taskwait_run task_id0 st0 evs).timed_out = true) ∧
    (tid ∉ (taskwait_run task_id0 st0 evs).tracked →
      php_swoole_server_onFinish tid p (taskwait_run task_id0 st0 evs) =
        { taskwait_run task_id0 st0 evs with
            expired_logs := (taskwait_run task_id0 st0 evs).expired_logs + 1 }) := by
  have hst0 : st0 = ⟨[task_id0], true, [], 1, [], none, 0, 0, 0, false⟩ := by
    unfold taskwait_coroutine at h0
    rw [if_pos rfl] at h0
    injection h0 with h
    exact h.symm
  have hinv0 : TaskwaitInv task_id0 st0 := by
    rw [hst0]
    exact ⟨rfl, Or.inl ⟨rfl, rfl, rfl⟩⟩
  have hinv := taskwait_inv_run task_id0 st0 evs hinv0
  constructor
  · rintro ⟨hres, hto⟩
    obtain ⟨-, hcase⟩ := hinv
    rcases hcase with ⟨-, hres2, -⟩ | ⟨-, hor⟩
    · exact hres hres2
    · rcases hor with h1 | h2
      · exact hres h1
      · rw [hto] at h2
        exact absurd h2 (by decide)
  · intro hnot
    unfold php_swoole_server_onFinish
    rw [if_neg hnot]

/-- A freshly tracked `taskwait` waiter under task id 3, for the C1
witness. -/
def taskwaitW : TaskCoState := ⟨[3], true, [], 1, [], none, 0, 0, 0, false⟩

/-- C1 witness: the contract instantiated for task id 3 after a timeout
event. -/
theorem taskwait_exactly_once_witness :
    ¬ ((taskwait_run 3 taskwaitW [.timeout]).result_single ≠ none ∧
       (taskwait_run 3 taskwaitW [.timeout]).timed_out = true) ∧
    ((3 : Int) ∉ (taskwait_run 3 taskwaitW [.timeout]).tracked →
      php_swoole_server_onFinish 3 .znull (taskwait_run 3 taskwaitW [.timeout]) =
        { taskwait_run 3 taskwaitW [.timeout] with
            expired_logs := (taskwait_run 3 taskwaitW [.timeout]).expired_logs + 1 }) :=
  taskwait_exactly_once 3 3 .znull [.timeout] taskwaitW (by decide)

theorem findTaskIndex_self (l : List Int) (j : Nat) (hj : j < l.length) (hnd : l.Nodup) :
    findTaskIndex (l.getD j (-1)) l l.length = some j := by
  induction l generalizing j with
  | nil => simp at hj
  | cons x rest ih =>
      obtain ⟨hx, hndr⟩ := List.nodup_cons.mp hnd
      cases j with
      | zero =>
          show findTaskIndex x (x :: rest) (x :: rest).length = some 0
          show (if x = x then some 0 else (findTaskIndex x rest rest.length).map (· + 1)) =
            some 0
          rw [if_pos rfl]
      | succ j2 =>
          have hj2 : j2 < rest.length := by
            simp only [List.length_cons] at hj
            omega
          rw [List.getD_cons_succ]
          have hmem : rest.getD j2 (-1) ∈ rest := by
            rw [List.getD_eq_getElem rest (-1) hj2]
            exact List.getElem_mem hj2
          have hne : ¬ (x = rest.getD j2 (-1)) := by
            intro heq
            rw [← heq] at hmem
            exact hx hmem
          show (if x = rest.getD j2 (-1) then some 0
            else (findTaskIndex (rest.getD j2 (-1)) rest rest.length).map (· + 1)) =
            some (j2 + 1)
          rw [if_neg hne, ih j2 hj2 hndr]
          rfl

theorem zarr_length_le (l : List (Option ZRes)) : zarr_length l ≤ l.length := by
  unfold zarr_length
  exact List.length_filterMap_le id l

theorem zarr_length_eq_length_iff (l : List (Option ZRes)) :
    zarr_length l = l.length ↔ ∀ k, k < l.length → l.getD k none ≠ none := by
  induction l with
  | nil => simp [zarr_length]
  | cons a rest ih =>
      cases a with
      | none =>
          constructor
          · intro h
            have hle := zarr_length_le rest
            have : zarr_length (none :: rest) = zarr_length rest := by
              simp [zarr_length]
            rw [this] at h
            simp only [List.length_cons] at h
            omega
          · intro h
            exact absurd rfl (h 0 (by simp))
      | some v =>
          have hstep : zarr_length (some v :: rest) = zarr_length rest + 1 := by
            simp [zarr_length]
          constructor
          · intro h k hk
            cases k with
            | zero => simp
            | succ k2 =>
                rw [List.getD_cons_succ]
                have hlen : zarr_length rest = rest.length := by
                  rw [hstep] at h
                  simp only [List.length_cons] at h
                  omega
                exact ih.mp hlen k2 (by simp only [List.length_cons] at hk; omega)
          · intro h
            have hlen : zarr_length rest = rest.length := by
              refine ih.mpr ?_
              intro k hk
              have := h (k + 1) (by simp only [List.length_cons]; omega)
              rwa [List.getD_cons_succ] at this
            rw [hstep, hlen]
            simp

theorem getD_replicate_none (n j : Nat) :
    (List.replicate n (none : Option ZRes)).getD j none = none := by
  induction n generalizing j with
  | zero => simp
  | succ m ih =>
      cases j with
      | zero => simp [List.replicate_succ]
      | succ j2 =>
          rw [List.replicate_succ, List.getD_cons_succ]
          exact ih j2

theorem taskCo_setup_go_all_ok :
    ∀ (specs : List TaskSpec), (∀ s ∈ specs, s.pack_ok = true ∧ s.dispatch_ok = true) →
    ∀ (i : Nat) (st : TaskCoState),
    taskCo_setup_go i st specs =
      { st with tracked := st.tracked ++ specs.map TaskSpec.task_id,
                co_list := st.co_list ++ specs.map TaskSpec.task_id } := by
  intro specs
  induction specs with
  | nil =>
      intro _ i st
      simp [taskCo_setup_go]
  | cons s rest ih =>
      intro h i st
      obtain ⟨hp, hd⟩ := h s (List.mem_cons_self s rest)
      have hrest : ∀ s2 ∈ rest, s2.pack_ok = true ∧ s2.dispatch_ok = true :=
        fun s2 hs2 => h s2 (List.mem_cons_of_mem s hs2)
      show (if s.pack_ok = false then _ else if s.dispatch_ok = false then _ else
        taskCo_setup_go (i + 1)
          { st with tracked := st.tracked ++ [s.task_id],
                    co_list := st.co_list ++ [s.task_id] } rest) = _
      rw [if_neg (by rw [hp]; decide), if_neg (by rw [hd]; decide)]
      rw [ih hrest]
      simp [List.append_assoc]

theorem getD_set_ne (l : List (Option ZRes)) (v : Option ZRes) :
    ∀ (i j : Nat), i ≠ j → (l.set i v).getD j none = l.getD j none := by
  induction l with
  | nil =>
      intro i j _
      simp
  | cons a rest ih =>
      intro i j hij
      cases i with
      | zero =>
          cases j with
          | zero => exact absurd rfl hij
          | succ j2 => simp [List.getD_cons_succ]
      | succ i2 =>
          cases j with
          | zero => simp
          | succ j2 =>
              rw [List.set_cons_succ, List.getD_cons_succ, List.getD_cons_succ]
              exact ih i2 j2 (by omega)

theorem getD_set_self (l : List (Option ZRes)) (v : Option ZRes) :
    ∀ i, i < l.length → (l.set i v).getD i none = v := by
  induction l with
  | nil =>
      intro i hi
      simp at hi
  | cons a rest ih =>
      intro i hi
      cases i with
      | zero => simp
      | succ i2 =>
          rw [List.set_cons_succ, List.getD_cons_succ]
          exact ih i2 (by simp only [List.length_cons] at hi; omega)

theorem taskCo_cleanup_spec (ids : List Int) (hnd : ids.Nodup) :
    ∀ (idxs : List Nat) (st : TaskCoState),
    st.co_list = ids →
    st.result_multi.length = ids.length →
    st.tracked.Nodup →
    (∀ i ∈ idxs, i < ids.length) →
    idxs.Nodup →
    (∀ x ∈ st.tracked, ∃ j, j < ids.length ∧ ids.getD j (-1) = x ∧
      st.result_multi.getD j none = none ∧ j ∈ idxs) →
    (taskCo_cleanup true st idxs).tracked = [] ∧
    (taskCo_cleanup true st idxs).result_multi.length = ids.length ∧
    (∀ j, j < ids.length →
      (taskCo_cleanup true st idxs).result_multi.getD j none =
        if j ∈ idxs ∧ st.result_multi.getD j none = none then some .failMarker
        else st.result_multi.getD j none) := by
  intro idxs
  induction idxs with
  | nil =>
      intro st h1 h2 h3 _h4 _h5 h6
      refine ⟨?_, h2, ?_⟩
      · refine List.eq_nil_iff_forall_not_mem.mpr ?_
        intro x hx
        obtain ⟨j, -, -, -, hj⟩ := h6 x hx
        exact absurd hj (List.not_mem_nil j)
      · intro j _hj
        rw [if_neg (by rintro ⟨hmem, -⟩; exact absurd hmem (List.not_mem_nil j))]
        rfl
  | cons i rest ih =>
      intro st h1 h2 h3 h4 h5 h6
      have hi : i < ids.length := h4 i (List.mem_cons_self i rest)
      have hrest : ∀ i2 ∈ rest, i2 < ids.length :=
        fun i2 hi2 => h4 i2 (List.mem_cons_of_mem i hi2)
      obtain ⟨hinr, hndr⟩ := List.nodup_cons.mp h5
      simp only [taskCo_cleanup]
      by_cases hres : (st.result_multi.getD i none).isSome = true
      · have hstep : taskCo_cleanup_step true st i = st := by
          unfold taskCo_cleanup_step
          rw [if_pos hres]
        rw [hstep]
        have h6r : ∀ x ∈ st.tracked, ∃ j, j < ids.length ∧ ids.getD j (-1) = x ∧
            st.result_multi.getD j none = none ∧ j ∈ rest := by
          intro x hx
          obtain ⟨j, hj, hidj, hmissj, hjmem⟩ := h6 x hx
          rcases List.mem_cons.mp hjmem with hji | hjr
          · subst hji
            rw [hmissj] at hres
            exact absurd hres (by decide)
          · exact ⟨j, hj, hidj, hmissj, hjr⟩
        obtain ⟨ha, hb, hc⟩ := ih st h1 h2 h3 hrest hndr h6r
        refine ⟨ha, hb, ?_⟩
        intro j hj
        rw [hc j hj]
        by_cases hmiss : st.result_multi.getD j none = none
        · have hji : j ≠ i := by
            intro heq
            rw [heq] at hmiss
            rw [hmiss] at hres
            exact absurd hres (by decide)
          by_cases hjr : j ∈ rest
          · rw [if_pos ⟨hjr, hmiss⟩, if_pos ⟨List.mem_cons_of_mem i hjr, hmiss⟩]
          · rw [if_neg (by rintro ⟨hm, -⟩; exact hjr hm),
              if_neg (by rintro ⟨hm, -⟩; exact hjr (List.mem_of_ne_of_mem hji hm))]
        · rw [if_neg (by rintro ⟨-, hm⟩; exact hmiss hm),
            if_neg (by rintro ⟨-, hm⟩; exact hmiss hm)]
      · have hmiss : st.result_multi.getD i none = none :=
          Option.not_isSome_iff_eq_none.mp hres
        have hstep : taskCo_cleanup_step true st i =
            { st with result_multi := st.result_multi.set i (some .failMarker),
                      tracked := st.tracked.erase (ids.getD i (-1)) } := by
          unfold taskCo_cleanup_step
          rw [if_neg hres, if_pos rfl, h1]
        rw [hstep]
        have h6r : ∀ x ∈ st.tracked.erase (ids.getD i (-1)),
            ∃ j, j < ids.length ∧ ids.getD j (-1) = x ∧
              (st.result_multi.set i (some .failMarker)).getD j none = none ∧ j ∈ rest := by
          intro x hx
          have hxne : x ≠ ids.getD i (-1) ∧ x ∈ st.tracked :=
            (List.Nodup.mem_erase_iff h3).mp hx
          obtain ⟨j, hj, hidj, hmissj, hjmem⟩ := h6 x hxne.2
          have hji : j ≠ i := by
            intro heq
            rw [heq] at hidj
            exact hxne.1 hidj.symm
          rcases List.mem_cons.mp hjmem with hjeq | hjr
          · exact absurd hjeq hji
          · refine ⟨j, hj, hidj, ?_, hjr⟩
            rw [getD_set_ne _ _ i j (by omega)]
            exact hmissj
        obtain ⟨ha, hb, hc⟩ := ih
          { st with result_multi := st.result_multi.set i (some .failMarker),
                    tracked := st.tracked.erase (ids.getD i (-1)) }
          h1 (by simpa using h2) (List.Nodup.erase _ h3) hrest hndr h6r
        refine ⟨ha, hb, ?_⟩
        intro j hj
        rw [hc j hj]
        by_cases hji : j = i
        · subst hji
          rw [if_neg (by rintro ⟨hm, -⟩; exact hinr hm)]
          rw [getD_set_self _ _ j (by omega)]
          rw [if_pos ⟨List.mem_cons_self j rest, hmiss⟩]
        · rw [getD_set_ne _ _ i j (by omega)]
          by_cases hjr : j ∈ rest
          · by_cases hm2 : st.result_multi.getD j none = none
            · rw [if_pos ⟨hjr, hm2⟩, if_pos ⟨List.mem_cons_of_mem i hjr, hm2⟩]
            · rw [if_neg (by rintro ⟨-, hm⟩; exact hm2 hm),
                if_neg (by rintro ⟨-, hm⟩; exact hm2 hm)]
          · rw [if_neg (by rintro ⟨hm, -⟩; exact hjr hm),
              if_neg (by rintro ⟨hm, -⟩; exact hjr (List.mem_of_ne_of_mem hji hm))]

theorem onFinish_join_step (ids : List Int) (hnd : ids.Nodup) (st : TaskCoState)
    (hJC : JoinConsistent ids st) (j : Nat) (hj : j < ids.length) (p : ZValue)
    (hmem : ids.getD j (-1) ∈ st.tracked) :
    php_swoole_server_onFinish (ids.getD j (-1)) p st =
      { st with result_multi := st.result_multi.set j (some (.ok p)),
                tracked := st.tracked.erase (ids.getD j (-1)),
                resumed := if zarr_length (st.result_multi.set j (some (.ok p))) = ids.length
                           then st.resumed + 1 else st.resumed } ∧
    JoinConsistent ids (php_swoole_server_onFinish (ids.getD j (-1)) p st) := by
  obtain ⟨hsingle, hlist, hcount, hlen, hndtr, hcorr⟩ := hJC
  have hfind : findTaskIndex (ids.getD j (-1)) st.co_list st.co_count = some j := by
    rw [hlist, hcount]
    exact findTaskIndex_self ids j hj hnd
  have heq : php_swoole_server_onFinish (ids.getD j (-1)) p st =
      { st with result_multi := st.result_multi.set j (some (.ok p)),
                tracked := st.tracked.erase (ids.getD j (-1)),
                resumed := if zarr_length (st.result_multi.set j (some (.ok p))) = ids.length
                           then st.resumed + 1 else st.resumed } := by
    unfold php_swoole_server_onFinish
    rw [if_pos hmem, if_neg (by rw [hsingle]; decide), hfind, hcount]
  refine ⟨heq, ?_⟩
  rw [heq]
  refine ⟨hsingle, hlist, hcount, ?_, List.Nodup.erase _ hndtr, ?_⟩
  · show (st.result_multi.set j (some (.ok p))).length = ids.length
    rw [List.length_set]
    exact hlen
  · intro x hx
    have hx2 : x ≠ ids.getD j (-1) ∧ x ∈ st.tracked :=
      (List.Nodup.mem_erase_iff hndtr).mp hx
    obtain ⟨k, hk, hidk, hmissk⟩ := hcorr x hx2.2
    have hkj : k ≠ j := by
      intro heq2
      apply hx2.1
      rw [← hidk, heq2]
    refine ⟨k, hk, hidk, ?_⟩
    show (st.result_multi.set j (some (.ok p))).getD k none = none
    rw [getD_set_ne _ _ j k (by omega)]
    exact hmissk

/-- C3 (amended): for a `taskCo` join in which every task packs and
dispatches successfully and the task ids are distinct — (1) the call tracks
all n ids over an empty ordered result array; (2) from any consistent
mid-join state, a completion for the id at original index j is written at
index j, its tracking entry is erased, consistency is preserved and the
coroutine is resumed exactly when all n result slots are populated; (3) on
timeout every still-tracked id is erased and every absent index receives
the explicit `false` failure marker, populated indices being left as they
are. -/
theorem taskCo_join_contract (specs : List TaskSpec) (task_worker_num : Nat)
    (hspecs : ∀ s ∈ specs, s.pack_ok = true ∧ s.dispatch_ok = true)
    (hn0 : 0 < specs.length) (hnmax : specs.length < SW_MAX_CONCURRENT_TASK)
    (hnd : (specs.map TaskSpec.task_id).Nodup)
    (htw : 0 < task_worker_num) :
    (zim_swoole_server_taskCo true true task_worker_num false specs =
      some { tracked := specs.map TaskSpec.task_id, single := false,
             co_list := specs.map TaskSpec.task_id, co_count := specs.length,
             result_multi := List.replicate specs.length none, result_single := none,
             resumed := 0, expired_logs := 0, invalid_logs := 0, timed_out := false } ∧
     JoinConsistent (specs.map TaskSpec.task_id)
       { tracked := specs.map TaskSpec.task_id, single := false,
         co_list := specs.map TaskSpec.task_id, co_count := specs.length,
         result_multi := List.replicate specs.length none, result_single := none,
         resumed := 0, expired_logs := 0, invalid_logs := 0, timed_out := false }) ∧
    (∀ (st : TaskCoState) (j : Nat) (p : ZValue),
      JoinConsistent (specs.map TaskSpec.task_id) st → j < specs.length →
      (specs.map TaskSpec.task_id).getD j (-1) ∈ st.tracked →
      php_swoole_server_onFinish ((specs.map TaskSpec.task_id).getD j (-1)) p st =
        { st with result_multi := st.result_multi.set j (some (.ok p)),
                  tracked := st.tracked.erase ((specs.map TaskSpec.task_id).getD j (-1)),
                  resumed := if zarr_length (st.result_multi.set j (some (.ok p))) =
                      specs.length then st.resumed + 1 else st.resumed } ∧
      JoinConsistent (specs.map TaskSpec.task_id)
        (php_swoole_server_onFinish ((specs.map TaskSpec.task_id).getD j (-1)) p st) ∧
      ((php_swoole_server_onFinish ((specs.map TaskSpec.task_id).getD j (-1)) p st).resumed =
          st.resumed + 1 ↔
        ∀ k, k < specs.length →
          (st.result_multi.set j (some (.ok p))).getD k none ≠ none)) ∧
    (∀ st : TaskCoState, JoinConsistent (specs.map TaskSpec.task_id) st →
      (taskCo_timeout true st).tracked = [] ∧
      (taskCo_timeout true st).timed_out = true ∧
      (∀ j, j < specs.length →
        (taskCo_timeout true st).result_multi.getD j none =
          if st.result_multi.getD j none = none then some .failMarker
          else st.result_multi.getD j none)) := by
  have hlenmap : (specs.map TaskSpec.task_id).length = specs.length := List.length_map _ _
  refine ⟨⟨?_, ?_⟩, ?_, ?_⟩
  · have hcp : php_swoole_server_task_check_param task_worker_num (-1) false = true := by
      unfold php_swoole_server_task_check_param
      rw [if_neg (by omega), if_neg (by rintro ⟨hgt, -⟩; omega),
        if_neg (by decide : ¬ (false = true))]
    unfold zim_swoole_server_taskCo
    rw [if_neg (by decide : ¬ (true = false)), if_neg (by decide : ¬ (true = false)),
      if_neg (by omega), if_neg (by rw [hcp]; decide)]
    rw [taskCo_setup_go_all_ok specs hspecs 0 _]
    simp only [List.nil_append]
    rw [if_neg (by omega)]
  · refine ⟨rfl, rfl, hlenmap.symm ▸ rfl, ?_, ?_, ?_⟩
    · show (List.replicate specs.length (none : Option ZRes)).length =
        (specs.map TaskSpec.task_id).length
      rw [List.length_replicate, hlenmap]
    · exact hnd
    · intro x hx
      obtain ⟨j, hjlt, hjx⟩ := List.mem_iff_getElem.mp hx
      refine ⟨j, hjlt, ?_, ?_⟩
      · rw [List.getD_eq_getElem _ (-1) hjlt]
        exact hjx
      · exact getD_replicate_none _ _
  · intro st j p hJC2 hj hmem
    have hj2 : j < (specs.map TaskSpec.task_id).length := by rw [hlenmap]; omega
    obtain ⟨hstep, hJC3⟩ := onFinish_join_step (specs.map TaskSpec.task_id) hnd st hJC2
      j hj2 p hmem
    rw [hlenmap] at hstep
    refine ⟨hstep, hJC3, ?_⟩
    have hsl : (st.result_multi.set j (some (.ok p))).length = specs.length := by
      rw [List.length_set]
      rw [hJC2.2.2.2.1, hlenmap]
    have hiff := zarr_length_eq_length_iff (st.result_multi.set j (some (.ok p)))
    rw [hsl] at hiff
    rw [hstep]
    by_cases hful : zarr_length (st.result_multi.set j (some (.ok p))) = specs.length
    · show (if zarr_length (st.result_multi.set j (some (.ok p))) = specs.length
        then st.resumed + 1 else st.resumed) = st.resumed + 1 ↔ _
      rw [if_pos hful]
      constructor
      · intro _
        exact hiff.mp hful
      · intro _
        rfl
    · show (if zarr_length (st.result_multi.set j (some (.ok p))) = specs.length
        then st.resumed + 1 else st.resumed) = st.resumed + 1 ↔ _
      rw [if_neg hful]
      constructor
      · intro habs
        exact absurd habs (by omega)
      · intro hall
        exact absurd (hiff.mpr hall) hful
  · intro st hJC2
    obtain ⟨hsingle, hlist, hcount, hlen, hndtr, hcorr⟩ := hJC2
    obtain ⟨ha, hb, hc⟩ := taskCo_cleanup_spec (specs.map TaskSpec.task_id) hnd
      (List.range (specs.map TaskSpec.task_id).length) st hlist hlen hndtr
      (fun i hi => List.mem_range.mp hi) (List.nodup_range _)
      (fun x hx => by
        obtain ⟨k, hk, hidk, hmissk⟩ := hcorr x hx
        exact ⟨k, hk, hidk, hmissk, List.mem_range.mpr hk⟩)
    have hrange : List.range st.co_count = List.range (specs.map TaskSpec.task_id).length := by
      rw [hcount]
    refine ⟨?_, rfl, ?_⟩
    · show (taskCo_cleanup true st (List.range st.co_count)).tracked = []
      rw [hrange]
      exact ha
    · intro j hj
      have hj2 : j < (specs.map TaskSpec.task_id).length := by rw [hlenmap]; omega
      show (taskCo_cleanup true st (List.range st.co_count)).result_multi.getD j none = _
      rw [hrange, hc j hj2]
      by_cases hmiss : st.result_multi.getD j none = none
      · rw [if_pos ⟨List.mem_range.mpr hj2, hmiss⟩, if_pos hmiss]
      · rw [if_neg (by rintro ⟨-, hm⟩; exact hmiss hm), if_neg hmiss]

/-- The waiter state produced by a two-task `taskCo` call whose first task
fails to dispatch: index 0 already carries the failure marker, only id 7 is
tracked, and the live count has dropped to 1. -/
def taskCoPartialState : TaskCoState :=
  ⟨[7], false, [-1, 7], 1, [some .failMarker, none], none, 0, 0, 0, false⟩

/-- C3 counterexample: in a two-task join whose first task failed to
dispatch, the timeout cleanup loop only covers the first `count = 1`
indices, so the still-outstanding id 7 (at original index 1) is left in
`task_coroutine_map` and index 1 of the result array receives no failure
marker — contradicting the claim that on timeout every outstanding id is
erased and every missing index is marked failed. -/
theorem taskCo_timeout_counterexample :
    zim_swoole_server_taskCo true true 2 false
      [⟨true, false, 5⟩, ⟨true, true, 7⟩] = some taskCoPartialState ∧
    (taskCo_timeout true taskCoPartialState).tracked = [7] ∧
    (taskCo_timeout true taskCoPartialState).result_multi.getD 1 none = none := by
  refine ⟨?_, ?_, ?_⟩ <;> decide

/-- Spec list for the C3 witness: two tasks, both packing and dispatching
successfully, with distinct ids 5 and 7. -/
def taskCoSpecsW : List TaskSpec := [⟨true, true, 5⟩, ⟨true, true, 7⟩]

/-- C3 witness: the join contract instantiated at `taskCoSpecsW` with two
task workers. -/
theorem taskCo_join_contract_witness :
    (zim_swoole_server_taskCo true true 2 false taskCoSpecsW =
      some { tracked := taskCoSpecsW.map TaskSpec.task_id, single := false,
             co_list := taskCoSpecsW.map TaskSpec.task_id, co_count := taskCoSpecsW.length,
             result_multi := List.replicate taskCoSpecsW.length none, result_single := none,
             resumed := 0, expired_logs := 0, invalid_logs := 0, timed_out := false } ∧
     JoinConsistent (taskCoSpecsW.map TaskSpec.task_id)
       { tracked := taskCoSpecsW.map TaskSpec.task_id, single := false,
         co_list := taskCoSpecsW.map TaskSpec.task_id, co_count := taskCoSpecsW.length,
         result_multi := List.replicate taskCoSpecsW.length none, result_single := none,
         resumed := 0, expired_logs := 0, invalid_logs := 0, timed_out := false }) ∧
    (∀ (st : TaskCoState) (j : Nat) (p : ZValue),
      JoinConsistent (taskCoSpecsW.map TaskSpec.task_id) st → j < taskCoSpecsW.length →
      (taskCoSpecsW.map TaskSpec.task_id).getD j (-1) ∈ st.tracked →
      php_swoole_server_onFinish ((taskCoSpecsW.map TaskSpec.task_id).getD j (-1)) p st =
        { st with result_multi := st.result_multi.set j (some (.ok p)),
                  tracked := st.tracked.erase ((taskCoSpecsW.map TaskSpec.task_id).getD j (-1)),
                  resumed := if zarr_length (st.result_multi.set j (some (.ok p))) =
                      taskCoSpecsW.length then st.resumed + 1 else st.resumed } ∧
      JoinConsistent (taskCoSpecsW.map TaskSpec.task_id)
        (php_swoole_server_onFinish ((taskCoSpecsW.map TaskSpec.task_id).getD j (-1)) p st) ∧
      ((php_swoole_server_onFinish ((taskCoSpecsW.map TaskSpec.task_id).getD j (-1)) p st).resumed =
          st.resumed + 1 ↔
        ∀ k, k < taskCoSpecsW.length →
          (st.result_multi.set j (some (.ok p))).getD k none ≠ none)) ∧
    (∀ st : TaskCoState, JoinConsistent (taskCoSpecsW.map TaskSpec.task_id) st →
      (taskCo_timeout true st).tracked = [] ∧
      (taskCo_timeout true st).timed_out = true ∧
      (∀ j, j < taskCoSpecsW.length →
        (taskCo_timeout true st).result_multi.getD j none =
          if st.result_multi.getD j none = none then some .failMarker
          else st.result_multi.getD j none)) :=
  taskCo_join_contract taskCoSpecsW 2 (by decide) (by decide) (by decide) (by decide)
    (by decide)

end Swoole
